import Mathlib

/-!
Verification development for the signals-lab reactive-graph engine.

Shallow embedding of two engine variants of the repository:
* `V2` embeds `src/v2/system.ts` (the intrusive-link reactive system:
  `link`, `startTracking`, `endTracking`, `propagate`, `checkDirty`,
  `shallowPropagate`) together with the signal frontend that is compiled
  into the same translation unit (`_Signal` source setter / computed
  getter, `updateComputed`, `runEffect`, `flush`, `batchHandler`,
  `effect`).  The frontend refers to the engine's `COMPUTED` flag as
  `RELAYER`, to `EFFECT` as `WATCHER` and to `checkDirty` as
  `checkStale`; the embedding uses the engine's names.
* `V4` embeds `src/v4/index.ts` (generator-driven `run`, `unlink`,
  `propagate`, `SOURCE_PROTO.set`, `DERIVED_PROTO.get`) with the
  depth-bucketed min-heap scheduler variant whose `enqueue(link, depth)`
  signature matches the call sites of `index.ts`.

Mutable JS objects are modelled by stores (total functions from ids to
records) threaded through every operation; heap-allocated link and
dep-map objects get fresh ids from counters, so JS reference aliasing
(in particular the `prevRun` / `activeRun` aliasing of `_Signal`
subscribers) is preserved.  Loops and recursion are driven by an
explicit fuel parameter; an `oom` flag records fuel exhaustion so that
termination of a concrete scenario is witnessed by `oom = false`.
User-supplied compute bodies are deep-embedded (`Expr` for v2 plain
functions, `Gen` for v4 generator bodies); a thrown JS exception is the
`Expr.fail` / `Gen.fail` result, propagated exactly where the source
catches it.  Observable actions (compute invocations, effect runs,
reported errors and warnings) are appended to an event trace.
-/

namespace SignalsLab

/-- Values are JS values as far as the engine cares: compared with
reference equality and otherwise opaque. `none` models `undefined`. -/
abbrev Value := Option Int

/-- Observable events of a run: a computed's `fn` being invoked, an
effect's `fn` being invoked (with the value it produced, `none` when it
threw), and the console reports of the v4 engine. -/
inductive Ev where
  | computeCall (nid : Nat)
  | effectRun (nid : Nat) (v : Option Value)
  | cycleInit (nid : Nat)
  | cycleRe (nid : Nat)
  | warnNonSignal (nid : Nat)
  | rtError (nid : Nat)
  deriving DecidableEq, Repr

/-- Number of times the compute function of node `nid` was invoked in a
trace. -/
def countCompute (nid : Nat) (evs : List Ev) : Nat :=
  evs.countP fun e => e = Ev.computeCall nid

/-- The list of values an effect was run with, in order. -/
def effectValues (nid : Nat) (evs : List Ev) : List (Option Value) :=
  evs.filterMap fun e =>
    match e with
    | Ev.effectRun n v => if n = nid then some v else none
    | _ => none

/-- Number of effect invocations in a trace (any effect): the measure
by which "no effect ran" is expressed. -/
def effectRuns (evs : List Ev) : Nat :=
  evs.countP fun e =>
    match e with
    | Ev.effectRun _ _ => true
    | _ => false

/-- Association-list map with a default, modelling a JS object store;
the first binding of a key wins. -/
def lookupD {κ α : Type} [DecidableEq κ] : List (κ × α) → κ → α → α
  | [], _, d => d
  | (k, v) :: tl, j, d => if j = k then v else lookupD tl j d

/-- Association-list map without a default (`undefined` when the key is
absent). -/
def lookupO {κ α : Type} [DecidableEq κ] : List (κ × α) → κ → Option α
  | [], _ => none
  | (k, v) :: tl, j => if j = k then some v else lookupO tl j

/-- Remove every binding of a key (shadow removal before a store
write). -/
def dropKey {κ α : Type} [DecidableEq κ] : List (κ × α) → κ → List (κ × α)
  | [], _ => []
  | (k, v) :: tl, i => if k = i then dropKey tl i else (k, v) :: dropKey tl i

namespace V2

/-- Flag constants of `src/v2/system.ts`.  The frontend's `RELAYER` is
the engine's `COMPUTED` bit and `WATCHER` is `EFFECT`. -/
def COMPUTED : Nat := 1
def EFFECT : Nat := 2
def STALE : Nat := 4
def PENDING : Nat := 8
def RUNNING : Nat := 16
def DIRTY : Nat := STALE ||| PENDING
def PROPAGATING : Nat := DIRTY ||| RUNNING
/-- All flag bits; used to express bit clearing (`flags & ~DIRTY`) on
`Nat`. -/
def ALLF : Nat := 31

/-- Clearing mask `m` from a flags word (`flags & ~m` in the source). -/
def clearMask (f m : Nat) : Nat := f &&& (ALLF ^^^ m)

/-- Kind of a node, fixed at creation time by which `_Signal` prototype
the frontend installs (plain value, computed, or effect node). -/
inductive Kind where
  | src
  | comp
  | eff
  deriving DecidableEq, Repr

/-- First-order unary operators available to embedded compute
bodies. -/
inductive Op1 where
  | inc (k : Int)
  | small2
  deriving DecidableEq, Repr

/-- First-order binary operators available to embedded compute
bodies. -/
inductive Op2 where
  | add
  deriving DecidableEq, Repr

/-- Deep embedding of a user-supplied compute body: reading signals
(dispatched through the source/computed getter by node kind), pure
first-order combinators, a conditional, and a thrown exception
(`fail`). -/
inductive Expr where
  | lit (v : Value)
  | read (nid : Nat)
  | app1 (f : Op1) (a : Expr)
  | app2 (f : Op2) (a b : Expr)
  | cond (c t e : Expr)
  | fail
  deriving DecidableEq, Repr

/-- Semantics of the unary operators (on JS numbers; `undefined`
propagates). -/
def evalOp1 : Op1 → Value → Value
  | Op1.inc k, some x => some (x + k)
  | Op1.small2, some x => if x < 2 then some 1 else some 0
  | _, none => none

/-- Semantics of the binary operators. -/
def evalOp2 : Op2 → Value → Value → Value
  | Op2.add, some x, some y => some (x + y)
  | Op2.add, _, _ => none

/-- JS truthiness of an embedded value. -/
def truthy : Value → Bool
  | none => false
  | some i => i != 0

/-- A `LinkNode` of `src/v2/system.ts`. -/
structure LinkN where
  sub : Nat
  dep : Nat
  prevSub : Option Nat := none
  nextSub : Option Nat := none
  nextDep : Option Nat := none
  deriving DecidableEq, Repr

/-- A `ReactiveNode` of `src/v2/system.ts` merged with the fields the
frontend (`SignalNode` / `EffectNode`) adds: `currentValue`, `fn`,
`version`.  `activeRun` / `prevRun` hold ids of shared mutable dep-map
objects in the state's map store (JS object references). -/
structure NodeN where
  subsHead : Option Nat := none
  subsTail : Option Nat := none
  depsHead : Option Nat := none
  depsTail : Option Nat := none
  depId : Option Nat := none
  activeRun : Option Nat := none
  prevRun : Option Nat := none
  flags : Nat := 0
  currentValue : Value := none
  fn : Option Expr := none
  version : Nat := 0
  kind : Kind := Kind.src
  deriving DecidableEq, Repr

/-- The whole mutable state of the v2 translation unit: the node, link
and dep-map stores with their allocation counters, the module-level
globals (`id`, `version`, `activeSub`, `activeRoot`, `batchQueue` with
`batchIndex`, `batchDepth`), the event trace, a fuel-exhaustion marker
and a pending-uncaught-exception marker. -/
structure St where
  nodesL : List (Nat × NodeN) := []
  linksL : List (Nat × LinkN) := []
  mapsL : List (Nat × List (Nat × Nat)) := []
  nextNode : Nat := 0
  nextLink : Nat := 0
  nextMap : Nat := 0
  nextId : Nat := 0
  version : Nat := 0
  activeSub : Option Nat := none
  activeRoot : Option Nat := none
  batchQueue : List Nat := []
  batchIndex : Nat := 0
  batchDepth : Nat := 0
  evs : List Ev := []
  oom : Bool := false
  exn : Bool := false
  deriving DecidableEq, Repr

/-- The initial, empty state. -/
def St.init : St := {}

/-- Node store read (JS object dereference). -/
def St.nodes (st : St) (i : Nat) : NodeN := lookupD st.nodesL i {}

/-- Link store read. -/
def St.links (st : St) (i : Nat) : LinkN := lookupD st.linksL i { sub := 0, dep := 0 }

/-- Dep-map store read. -/
def St.maps (st : St) (i : Nat) : List (Nat × Nat) := lookupD st.mapsL i []

/-- Store write for nodes. -/
def updNode (st : St) (i : Nat) (f : NodeN → NodeN) : St :=
  { st with nodesL := (i, f (st.nodes i)) :: dropKey st.nodesL i }

/-- Store write for links. -/
def updLink (st : St) (i : Nat) (f : LinkN → LinkN) : St :=
  { st with linksL := (i, f (st.links i)) :: dropKey st.linksL i }

/-- Store write for dep maps. -/
def updMap (st : St) (i : Nat) (f : List (Nat × Nat) → List (Nat × Nat)) : St :=
  { st with mapsL := (i, f (st.maps i)) :: dropKey st.mapsL i }

/-- JS object property write `m[k] = v` on a dep map. -/
def mapInsert (m : List (Nat × Nat)) (k v : Nat) : List (Nat × Nat) :=
  (k, v) :: dropKey m k

/-- JS object property read `m[k]` on a dep map. -/
def mapLookup (m : List (Nat × Nat)) (k : Nat) : Option Nat :=
  lookupO m k

/-- Append an event to the trace. -/
def record (e : Ev) (st : St) : St := { st with evs := st.evs ++ [e] }

/-- Allocate a fresh link object; returns its id. -/
def allocLink (l : LinkN) (st : St) : Nat × St :=
  (st.nextLink,
    { st with
      linksL := (st.nextLink, l) :: st.linksL,
      nextLink := st.nextLink + 1 })

/-- Allocate a fresh dep-map object; returns its id. -/
def allocMap (m : List (Nat × Nat)) (st : St) : Nat × St :=
  (st.nextMap,
    { st with
      mapsL := (st.nextMap, m) :: st.mapsL,
      nextMap := st.nextMap + 1 })

/-- Shared tail of `link`: the allocation / previous-run-reuse part
after the early-return fast paths (from `let newLink: LinkNode;` down).
`nextDep` and `activeRun` carry whatever the local variables of the
source hold when this point is reached. -/
def linkTail (dep sub depId : Nat) (wasLiked : Bool) (prevDep nextDep activeRun : Option Nat)
    (st : St) : St :=
  let reuse : Option Nat :=
    if wasLiked then
      match (st.nodes sub).prevRun with
      | some m => mapLookup (st.maps m) depId
      | none => none
    else none
  let p101 :=
    match reuse with
    | some rl => (rl, updLink st rl fun l => { l with nextDep := nextDep })
    | none =>
      let prevSub := (st.nodes dep).subsTail
      let newL : LinkN :=
        { dep := dep, sub := sub, prevSub := prevSub, nextSub := none, nextDep := nextDep }
      let p1 := allocLink newL st
      let nl := p1.1
      let st := p1.2
      let st := updNode st sub fun n => { n with depsTail := some nl }
      let st :=
        match prevSub with
        | some ps => updLink st ps fun l => { l with nextSub := some nl }
        | none => updNode st dep fun n => { n with subsHead := some nl }
      let st := updNode st dep fun n => { n with subsTail := some nl }
      (nl, st)
  let newLink := p101.1
  let st := p101.2
  match prevDep with
  | some pd =>
    let st := updLink st pd fun l => { l with nextDep := some newLink }
    match activeRun with
    | some m => updMap st m fun mm => mapInsert mm depId newLink
    | none =>
      let pdDepId := ((st.nodes (st.links pd).dep).depId).getD 0
      let p2 := allocMap (mapInsert [(pdDepId, pd)] depId newLink) st
      let mid := p2.1
      let st := p2.2
      updNode st sub fun n => { n with activeRun := some mid }
  | none => updNode st sub fun n => { n with depsHead := some newLink }

/-- The `link(dep, sub)` operation of `src/v2/system.ts`. -/
def link (dep sub : Nat) (st : St) : St :=
  let prevDep := (st.nodes sub).depsTail
  let p102 :=
    match (st.nodes dep).depId with
    | some i => (i, true, st)
    | none =>
      (st.nextId, false,
        updNode { st with nextId := st.nextId + 1 } dep
          fun n => { n with depId := some st.nextId })
  let depId := p102.1
  let wasLiked := p102.2.1
  let st := p102.2.2
  if (st.nodes sub).flags &&& RUNNING ≠ 0 then
    match prevDep with
    | some pd =>
      let activeRun := (st.nodes sub).activeRun
      let nextDep := (st.links pd).nextDep
      match nextDep with
      | some nd =>
        if (st.links nd).dep = dep then
          let st :=
            match activeRun with
            | some m => updMap st m fun mm => mapInsert mm depId nd
            | none =>
              let pdDepId := ((st.nodes (st.links pd).dep).depId).getD 0
              let p3 := allocMap (mapInsert [(pdDepId, pd)] depId nd) st
              let mid := p3.1
              let st := p3.2
              updNode st sub fun n => { n with activeRun := some mid }
          updNode st sub fun n => { n with depsTail := some nd }
        else if (st.links pd).dep = dep then st
        else if wasLiked &&
            (match activeRun with
             | some m => (mapLookup (st.maps m) depId).isSome
             | none => false) then st
        else linkTail dep sub depId wasLiked prevDep nextDep activeRun st
      | none =>
        if (st.links pd).dep = dep then st
        else if wasLiked &&
            (match activeRun with
             | some m => (mapLookup (st.maps m) depId).isSome
             | none => false) then st
        else linkTail dep sub depId wasLiked prevDep nextDep activeRun st
    | none =>
      let nextDep := (st.nodes sub).depsHead
      match nextDep with
      | some nd =>
        if (st.links nd).dep = dep then
          updNode st sub fun n => { n with depsTail := some nd }
        else linkTail dep sub depId wasLiked prevDep nextDep none st
      | none => linkTail dep sub depId wasLiked prevDep nextDep none st
  else
    -- `sub.flags & RUNNING` false: fall through with nextDep and
    -- activeRun still undefined.
    linkTail dep sub depId wasLiked prevDep none none st

/-- The `startTracking(sub)` operation. -/
def startTracking (sub : Nat) (st : St) : St :=
  updNode st sub fun n =>
    { n with
      depsTail := none
      flags := clearMask n.flags DIRTY ||| RUNNING
      prevRun := n.activeRun }

/-- One step of the unlink drain of `endTracking`: splice the link out
of its dep's subs list, and when that leaves a computed dep unobserved
(`!dep.subsHead && dep.depsHead`) mark it STALE and splice its entire
deps list into the work list.  Returns the next link of the work list
and the new state. -/
def drainBody (l : Nat) (st : St) : Option Nat × St :=
  let lk := st.links l
  let dep := lk.dep
  let st :=
    match lk.nextSub with
    | some ns => updLink st ns fun x => { x with prevSub := lk.prevSub }
    | none => updNode st dep fun n => { n with subsTail := lk.prevSub }
  let st :=
    match lk.prevSub with
    | some ps => updLink st ps fun x => { x with nextSub := lk.nextSub }
    | none => updNode st dep fun n => { n with subsHead := lk.nextSub }
  let dn := st.nodes dep
  if dn.subsHead = none ∧ dn.depsHead ≠ none then
    let st := updNode st dep fun n => { n with flags := n.flags ||| STALE }
    let st :=
      match dn.depsTail with
      | some dt => updLink st dt fun x => { x with nextDep := lk.nextDep }
      | none => st  -- `dep.depsTail!` is asserted non-null in the source
    let st := updNode st dep fun n => { n with depsHead := none, depsTail := none }
    (dn.depsHead, st)
  else (lk.nextDep, st)

/-- The fueled unlink drain loop of `endTracking`. -/
def drainLoop : Nat → Option Nat → St → St
  | _, none, st => st
  | 0, some _, st => { st with oom := true }
  | fuel + 1, some l, st =>
    let p4 := drainBody l st
    let nxt := p4.1
    let st := p4.2
    drainLoop fuel nxt st

/-- The `endTracking(sub)` operation. -/
def endTracking (fuel : Nat) (sub : Nat) (st : St) : St :=
  let depsTail := (st.nodes sub).depsTail
  let p103 :=
    match depsTail with
    | none =>
      ((st.nodes sub).depsHead, updNode st sub fun n => { n with depsHead := none })
    | some dt =>
      match (st.links dt).nextDep with
      | some nd => (some nd, updLink st dt fun l => { l with nextDep := none })
      | none => (none, st)
  let start := p103.1
  let st := p103.2
  let st := drainLoop fuel start st
  let st := updNode st sub fun n => { n with prevRun := none }
  updNode st sub fun n => { n with flags := clearMask n.flags RUNNING }

/-- The frontend's `unlink` helper (`startTracking` then `endTracking`),
bound as the disposer of effects and roots. -/
def dispose (fuel : Nat) (nid : Nat) (st : St) : St :=
  endTracking fuel nid (startTracking nid st)

/-- The frontend's `notify` action handed to `createReactiveSystem`:
push the effect on `batchQueue`. -/
def notify (sub : Nat) (st : St) : St :=
  { st with batchQueue := st.batchQueue ++ [sub] }

/-- The `shallowPropagate` loop of the engine. -/
def shallowProp : Nat → Nat → St → St
  | 0, _, st => { st with oom := true }
  | fuel + 1, l, st =>
    let sub := (st.links l).sub
    let flags := (st.nodes sub).flags
    let st := updNode st sub fun n => { n with flags := flags ||| STALE }
    let st := if flags &&& EFFECT ≠ 0 then notify sub st else st
    match (st.links l).nextSub with
    | some nl => shallowProp fuel nl st
    | none => st

/-- The `shallowPropagate(subsHead)` call sites of `checkDirty` guard
with `if (subsHead.nextSub)`; the source asserts `dep.subsHead!`. -/
def cdShallow (fuel : Nat) (dep : Nat) (st : St) : St :=
  match (st.nodes dep).subsHead with
  | some sh => if (st.links sh).nextSub.isSome then shallowProp fuel sh st else st
  | none => st

/-- Write at index `depth` of the explicit `checkDirty` path stack
(a JS array whose popped entries stay in place). -/
def stackSet (stack : Nat → Option Nat) (depth l : Nat) : Nat → Option Nat :=
  fun d => if d = depth then some l else stack d

/-- The source getter of `_Signal.source`: link to the active consumer
and return the current value. -/
def sourceGet (nid : Nat) (st : St) : St × Value :=
  let st :=
    match st.activeSub with
    | some s => link nid s st
    | none => st
  (st, (st.nodes nid).currentValue)

mutual

/-- Outer work-queue loop of `propagate`: pop a link chain, derive the
chain's `targetFlags` from its producer's `COMPUTED` bit, process the
chain, repeat until the queue is drained. -/
def propLoop : Nat → List Nat → Nat → St → St
  | 0, _, _, st => { st with oom := true }
  | fuel + 1, queue, i, st =>
    if h : i < queue.length then
      let l := queue.get ⟨i, h⟩
      let targetFlags :=
        if (st.nodes (st.links l).dep).flags &&& COMPUTED ≠ 0 then PENDING else STALE
      let p5 := propChain fuel l targetFlags queue st
      let queue := p5.1
      let st := p5.2
      propLoop fuel queue (i + 1) st
    else st
termination_by structural _fuel _q _i _st => _fuel

/-- Inner `do … while (link = link.nextSub)` of `propagate`: OR the
target flag into each subscriber; skip ones already propagating; hand
effects to `notify`; enqueue a computed subscriber's own subs chain
(or, for a non-computed non-effect subscriber, enqueue only after
`update` reports a change). -/
def propChain : Nat → Nat → Nat → List Nat → St → List Nat × St
  | 0, _, _, queue, st => (queue, { st with oom := true })
  | fuel + 1, l, targetFlags, queue, st =>
    let sub := (st.links l).sub
    let flags := (st.nodes sub).flags
    let st := updNode st sub fun n => { n with flags := flags ||| targetFlags }
    let p104 :=
      if flags &&& PROPAGATING ≠ 0 then (queue, st)
      else if flags &&& EFFECT ≠ 0 then (queue, notify sub st)
      else
        match (st.nodes sub).subsHead with
        | some branch =>
          if flags &&& COMPUTED ≠ 0 then (queue ++ [branch], st)
          else
            let p6 := updateComputed fuel sub st
            let st := p6.1
            let chg := p6.2
            if chg then (queue ++ [branch], st) else (queue, st)
        | none => (queue, st)
    let queue := p104.1
    let st := p104.2
    match (st.links l).nextSub with
    | some nl => propChain fuel nl targetFlags queue st
    | none => (queue, st)
termination_by structural _fuel _l _tf _q _st => _fuel

/-- The `top: while (link)` loop of `checkDirty`, with the explicit
path stack and current depth.  `link = none` exits with `false`. -/
def cdLoop : Nat → Option Nat → (Nat → Option Nat) → Nat → St → St × Bool
  | _, none, _, _, st => (st, false)
  | 0, some _, _, _, st => ({ st with oom := true }, false)
  | fuel + 1, some l, stack, depth, st =>
    if stack depth = some l then cdAdvance fuel l stack depth st
    else
      let dep := (st.links l).dep
      let flags := (st.nodes dep).flags
      if flags &&& STALE ≠ 0 then
        let p7 := updateComputed fuel dep st
        let st := p7.1
        let chg := p7.2
        if chg then
          let st := cdShallow fuel dep st
          cdBubble fuel stack depth st
        else if flags &&& PENDING ≠ 0 then
          cdLoop fuel (st.nodes dep).depsHead (stackSet stack depth l) (depth + 1) st
        else cdAdvance fuel l stack depth st
      else if flags &&& PENDING ≠ 0 then
        cdLoop fuel (st.nodes dep).depsHead (stackSet stack depth l) (depth + 1) st
      else cdAdvance fuel l stack depth st
termination_by structural _fuel _l _stk _d _st => _fuel

/-- The advance step of `checkDirty`: move to `link.nextDep`; at the end
of a chain clear the consumer's dirty flags and pop the stack (at depth
zero the loop exits returning `false`). -/
def cdAdvance : Nat → Nat → (Nat → Option Nat) → Nat → St → St × Bool
  | 0, _, _, _, st => ({ st with oom := true }, false)
  | fuel + 1, l, stack, depth, st =>
    match (st.links l).nextDep with
    | some nd => cdLoop fuel (some nd) stack depth st
    | none =>
      let sub := (st.links l).sub
      let st := updNode st sub fun n => { n with flags := clearMask n.flags DIRTY }
      match depth with
      | 0 => (st, false)
      | depth' + 1 => cdLoop fuel (stack depth') stack depth' st
termination_by structural _fuel _l _stk _d _st => _fuel

/-- The `while (depth)` bubble of `checkDirty` after a confirmed
change: re-run `update` on each ancestor of the path; an unchanged
ancestor resumes the DFS (`continue top`) at its own link, a fully
changed path returns `true`. -/
def cdBubble : Nat → (Nat → Option Nat) → Nat → St → St × Bool
  | 0, _, _, st => ({ st with oom := true }, true)
  | _ + 1, _, 0, st => (st, true)
  | fuel + 1, stack, depth' + 1, st =>
    match stack depth' with
    | none => ({ st with oom := true }, true)
    | some l =>
      let dep := (st.links l).dep
      let p8 := updateComputed fuel dep st
      let st := p8.1
      let chg := p8.2
      if chg then
        let st := cdShallow fuel dep st
        cdBubble fuel stack depth' st
      else cdLoop fuel (some l) stack depth' st
termination_by structural _fuel _stk _d _st => _fuel

/-- The frontend's `updateComputed`: re-track and re-evaluate a
computed node, returning whether its value changed.  A thrown compute
is caught and reported as `false`; the `finally` block always ends
tracking and restores the active consumer. -/
def updateComputed : Nat → Nat → St → St × Bool
  | 0, _, st => ({ st with oom := true }, false)
  | fuel + 1, nid, st =>
    let prevSub := st.activeSub
    let st := { st with activeSub := some nid }
    let st := startTracking nid st
    let p105 :=
      match (st.nodes nid).fn with
      | some e =>
        let st := record (Ev.computeCall nid) st
        evalExpr fuel e st
      | none => (st, some none)
    let st := p105.1
    let r := p105.2
    let p106 :=
      match r with
      | none => (st, false)
      | some v =>
        if (st.nodes nid).currentValue = v then (st, false)
        else
          let nv := st.version + 1
          let st := updNode { st with version := nv } nid
            fun n => { n with currentValue := v, version := nv }
          (st, true)
    let st := p106.1
    let ret := p106.2
    let st := endTracking fuel nid st
    ({ st with activeSub := prevSub }, ret)
termination_by structural _fuel _nid _st => _fuel

/-- Evaluation of an embedded compute body.  Reads dispatch through the
source / computed getter by node kind; `none` is a thrown exception
propagating outward. -/
def evalExpr : Nat → Expr → St → St × Option Value
  | 0, _, st => ({ st with oom := true }, none)
  | fuel + 1, e, st =>
    match e with
    | Expr.lit v => (st, some v)
    | Expr.read nid =>
      match (st.nodes nid).kind with
      | Kind.src =>
        let p9 := sourceGet nid st
        let st := p9.1
        let v := p9.2
        (st, some v)
      | Kind.comp =>
        let p10 := computedGet fuel nid st
        let st := p10.1
        let v := p10.2
        (st, some v)
      | Kind.eff => (st, some none)
    | Expr.app1 f a =>
      let p11 := evalExpr fuel a st
      let st := p11.1
      let r := p11.2
      match r with
      | some v => (st, some (evalOp1 f v))
      | none => (st, none)
    | Expr.app2 f a b =>
      let p12 := evalExpr fuel a st
      let st := p12.1
      let ra := p12.2
      match ra with
      | none => (st, none)
      | some va =>
        let p13 := evalExpr fuel b st
        let st := p13.1
        let rb := p13.2
        match rb with
        | none => (st, none)
        | some vb => (st, some (evalOp2 f va vb))
    | Expr.cond c t e' =>
      let p14 := evalExpr fuel c st
      let st := p14.1
      let rc := p14.2
      match rc with
      | none => (st, none)
      | some vc => if truthy vc then evalExpr fuel t st else evalExpr fuel e' st
    | Expr.fail => (st, none)
termination_by structural _fuel _e _st => _fuel

/-- The computed getter of `_Signal.computed`: snapshot the flags, link
to the active consumer, recompute when STALE (or PENDING with a
confirming dirty check), and return the stored value. -/
def computedGet : Nat → Nat → St → St × Value
  | 0, _, st => ({ st with oom := true }, none)
  | fuel + 1, nid, st =>
    let flags := (st.nodes nid).flags
    let st :=
      match st.activeSub with
      | some s => link nid s st
      | none => st
    let p107 :=
      if flags &&& STALE ≠ 0 then (st, true)
      else if flags &&& PENDING ≠ 0 then
        match (st.nodes nid).depsHead with
        | some dh => cdLoop fuel (some dh) (fun _ => none) 0 st
        | none => (st, false)
      else (st, false)
    let st := p107.1
    let doUpd := p107.2
    let st := if doUpd then (updateComputed fuel nid st).1 else st
    (st, (st.nodes nid).currentValue)
termination_by structural _fuel _nid _st => _fuel

/-- The frontend's `runEffect`: track and invoke the effect body; a
thrown body still ends tracking (`finally`) and then propagates as an
uncaught exception (`exn`). -/
def runEffect : Nat → Nat → St → St
  | 0, _, st => { st with oom := true }
  | fuel + 1, nid, st =>
    let prevSub := st.activeSub
    let st := { st with activeSub := some nid }
    let st := startTracking nid st
    let p108 :=
      match (st.nodes nid).fn with
      | some e => evalExpr fuel e st
      | none => (st, some none)
    let st := p108.1
    let r := p108.2
    let st := record (Ev.effectRun nid r) st
    let st :=
      match r with
      | some _ =>
        let nv := st.version + 1
        updNode { st with version := nv } nid fun n => { n with version := nv }
      | none => { st with exn := true }
    let st := endTracking fuel nid st
    { st with activeSub := prevSub }

/-- The frontend's `flush`: drain `batchQueue`, re-running each queued
effect whose flags are STALE, or PENDING with a confirming dirty check
on its deps. -/
def flush : Nat → St → St
  | 0, st => { st with oom := true }
  | fuel + 1, st =>
    if st.exn then st
    else if h : st.batchIndex < st.batchQueue.length then
      let e := st.batchQueue.get ⟨st.batchIndex, h⟩
      let st := { st with batchIndex := st.batchIndex + 1 }
      let flags := (st.nodes e).flags
      let p109 :=
        if flags &&& STALE ≠ 0 then (st, true)
        else if flags &&& PENDING ≠ 0 then
          match (st.nodes e).depsHead with
          | some dh => cdLoop fuel (some dh) (fun _ => none) 0 st
          | none => (st, false)
        else (st, false)
      let st := p109.1
      let doRun := p109.2
      let st := if doRun then runEffect fuel e st else st
      flush fuel st
    else { st with batchQueue := [], batchIndex := 0 }
termination_by structural _fuel _st => _fuel

end

/-- The `propagate(link)` entry point: push the starting chain and
drain the work queue. -/
def propagate (fuel : Nat) (l : Nat) (st : St) : St :=
  propLoop fuel [l] 0 st

/-- The source value setter of `_Signal.source`: equal writes are a
no-op; otherwise store, and when subscribers exist bump the version,
propagate, and flush outside a batch. -/
def sourceSet (fuel : Nat) (nid : Nat) (v : Value) (st : St) : St :=
  if (st.nodes nid).currentValue = v then st
  else
    let st := updNode st nid fun n => { n with currentValue := v }
    match (st.nodes nid).subsHead with
    | none => st
    | some subs =>
      let nv := st.version + 1
      let st := updNode { st with version := nv } nid fun n => { n with version := nv }
      let st := propagate fuel subs st
      if st.batchDepth = 0 then flush fuel st else st

/-- Creation of a plain source signal (`signal(value)`). -/
def mkSource (v : Value) (st : St) : Nat × St :=
  (st.nextNode,
    updNode { st with nextNode := st.nextNode + 1 } st.nextNode
      fun _ => { currentValue := v, flags := 0, kind := Kind.src })

/-- Creation of a computed signal (`signal(fn)`): flags start as
`RELAYER | STALE`, the stored value as `undefined`. -/
def mkComputed (e : Expr) (st : St) : Nat × St :=
  (st.nextNode,
    updNode { st with nextNode := st.nextNode + 1 } st.nextNode
      fun _ => { flags := COMPUTED ||| STALE, kind := Kind.comp, fn := some e })

/-- Creation of an effect (`effect(fn)`): link it under the active
consumer or root if any, then run it once.  The returned id's disposer
is `dispose`. -/
def mkEffect (fuel : Nat) (e : Expr) (st : St) : Nat × St :=
  let nid := st.nextNode
  let st := updNode { st with nextNode := nid + 1 } nid
    fun _ => { flags := EFFECT, kind := Kind.eff, fn := some e }
  let st :=
    match st.activeSub with
    | some s => link nid s st
    | none =>
      match st.activeRoot with
      | some r => link nid r st
      | none => st
  (nid, runEffect fuel nid st)

/-- The frontend's `batchHandler`: bump the batch depth around the
body; the outermost exit flushes. -/
def batchRun (fuel : Nat) (body : St → St) (st : St) : St :=
  let st := { st with batchDepth := st.batchDepth + 1 }
  let st := body st
  let st := { st with batchDepth := st.batchDepth - 1 }
  if st.batchDepth = 0 then flush fuel st else st

/-- A sequence of source writes, as a batch body performs them. -/
def applyWrites : Nat → List (Nat × Value) → St → St
  | _, [], st => st
  | fuel, p :: tl, st => applyWrites fuel tl (sourceSet fuel p.1 p.2 st)

/-- Reading a signal from outside any consumer, as host code does:
dispatch on the node's prototype. -/
def readSignal (fuel : Nat) (nid : Nat) (st : St) : St × Value :=
  match (st.nodes nid).kind with
  | Kind.comp => computedGet fuel nid st
  | _ => sourceGet nid st

/-- The dep ids along a node's deps chain, in order (diagnostic view of
the intrusive list used by the tracking-protocol theorems). -/
def depsChain : Nat → Option Nat → St → List Nat
  | _, none, _ => []
  | 0, some _, _ => []
  | fuel + 1, some l, st => (st.links l).dep :: depsChain fuel (st.links l).nextDep st

/-- The deps of a subscriber as recorded in its intrusive list. -/
def depsOf (fuel : Nat) (nid : Nat) (st : St) : List Nat :=
  depsChain fuel (st.nodes nid).depsHead st

/-- The sub ids along a node's subs chain, in order. -/
def subsChain : Nat → Option Nat → St → List Nat
  | _, none, _ => []
  | 0, some _, _ => []
  | fuel + 1, some l, st => (st.links l).sub :: subsChain fuel (st.links l).nextSub st

/-- The subscribers of a dependency as recorded in its intrusive
list. -/
def subsOf (fuel : Nat) (nid : Nat) (st : St) : List Nat :=
  subsChain fuel (st.nodes nid).subsHead st

end V2

namespace V4

/-- A target yielded by a v4 generator body: a signal, or (for the
warning path) a non-signal raw value. -/
inductive GTgt where
  | sig (nid : Nat)
  | raw (v : Value)
  deriving DecidableEq, Repr

/-- First-order final step of a generator body, computed from the
values the engine sent back: a constant, or the last received value
with a default for `undefined` (JS `x ?? d`). -/
inductive GFin where
  | konst (v : Value)
  | lastOr (d : Int)
  deriving DecidableEq, Repr

/-- Semantics of the final step. -/
def evalGFin : GFin → List Value → Value
  | GFin.konst v, _ => v
  | GFin.lastOr d, acc =>
    match acc.getLast? with
    | some (some x) => some x
    | _ => some d

/-- Deep embedding of a v4 generator compute body: the targets yielded
in order, whether the body then throws, and the first-order final
value. -/
structure GenP where
  targets : List GTgt
  throws : Bool := false
  fin : GFin
  deriving DecidableEq, Repr

/-- A paused generator position: the targets not yet consumed, the
values received so far, and the body's tail behavior. -/
structure GenPos where
  remaining : List GTgt
  acc : List Value := []
  throws : Bool := false
  fin : GFin
  deriving DecidableEq, Repr

/-- The fresh generator position of a body (`gen = sub.fn()`). -/
def GenP.start (p : GenP) : GenPos :=
  { remaining := p.targets, acc := [], throws := p.throws, fin := p.fin }

/-- What the generator's current step is (`step.done` / `step.value`). -/
inductive GView where
  | done (v : Value)
  | fail
  | ysig (nid : Nat)
  | yraw (v : Value)

/-- Inspect the current step of a position. -/
def GenPos.view (pos : GenPos) : GView :=
  match pos.remaining with
  | [] => if pos.throws then GView.fail else GView.done (evalGFin pos.fin pos.acc)
  | GTgt.sig n :: _ => GView.ysig n
  | GTgt.raw v :: _ => GView.yraw v

/-- Resume the generator with a value (`gen.next(v)`). -/
def GenPos.next (pos : GenPos) (v : Value) : GenPos :=
  { pos with remaining := pos.remaining.tail, acc := pos.acc ++ [v] }

/-- A v4 `LinkNode`. -/
structure LinkV where
  sub : Nat
  dep : Nat
  nextDep : Option Nat := none
  prevSub : Option Nat := none
  nextSub : Option Nat := none
  deriving DecidableEq, Repr

/-- A v4 `ReactiveNode` / `ComputedNode` / `SourceNode` merged: sources
have `fn = none` and `depth = -1`.  `gen` holds the parked generator
position (`sub.gen` together with `sub.step`). -/
structure NodeV where
  id : Nat := 0
  depth : Int := 0
  stale : Bool := false
  subId : Option Nat := none
  subRunId : Option Nat := none
  depsHead : Option Nat := none
  depsTail : Option Nat := none
  subsHead : Option Nat := none
  subsTail : Option Nat := none
  value : Value := none
  fn : Option GenP := none
  runId : Nat := 0
  slot : Option Nat := none
  running : Bool := false
  recursive : Bool := false
  gen : Option GenPos := none
  deriving DecidableEq, Repr

/-- A depth bucket of the min-heap scheduler: the array of queued subs
with its logical `size`, the drain `index`, and the bucket's position
in the heap (`slot`). -/
structure Bk where
  depth : Int
  subsL : List (Nat × Nat) := []
  size : Nat := 0
  index : Nat := 0
  slot : Option Nat := none
  deriving DecidableEq, Repr

/-- Bucket array read (`bucket.subs[i]`; cleared slots hold
`undefined`). -/
def Bk.subs (b : Bk) (i : Nat) : Option Nat := lookupO b.subsL i

/-- Bucket array write. -/
def Bk.setSub (b : Bk) (i : Nat) (v : Option Nat) : Bk :=
  { b with subsL :=
      match v with
      | some x => (i, x) :: dropKey b.subsL i
      | none => dropKey b.subsL i }

/-- The mutable state of the v4 translation unit plus its min-heap
scheduler instance: node and link stores, the bucket cache keyed by
depth, the heap of bucket keys, and the module globals. -/
structure StV where
  nodesL : List (Nat × NodeV) := []
  linksL : List (Nat × LinkV) := []
  nextNode : Nat := 0
  nextLink : Nat := 0
  cacheL : List (Int × Bk) := []
  heapL : List (Nat × Int) := []
  heapSize : Nat := 0
  isFlushing : Bool := false
  batchDepth : Nat := 0
  batchTick : Nat := 0
  evs : List Ev := []
  oom : Bool := false
  deriving DecidableEq, Repr

/-- The initial, empty v4 state. -/
def StV.init : StV := {}

/-- Node store read. -/
def StV.nodes (st : StV) (i : Nat) : NodeV := lookupD st.nodesL i {}

/-- Link store read. -/
def StV.links (st : StV) (i : Nat) : LinkV := lookupD st.linksL i { sub := 0, dep := 0 }

/-- Bucket cache read (`cache[depth]`). -/
def StV.cache (st : StV) (d : Int) : Option Bk := lookupO st.cacheL d

/-- Heap array read. -/
def StV.heap (st : StV) (i : Nat) : Option Int := lookupO st.heapL i

/-- Store write for v4 nodes. -/
def updN (st : StV) (i : Nat) (f : NodeV → NodeV) : StV :=
  { st with nodesL := (i, f (st.nodes i)) :: dropKey st.nodesL i }

/-- Store write for v4 links. -/
def updL (st : StV) (i : Nat) (f : LinkV → LinkV) : StV :=
  { st with linksL := (i, f (st.links i)) :: dropKey st.linksL i }

/-- Store write for a heap bucket (buckets are identified by their
depth: `cache[depth]` holds the unique bucket object of that depth). -/
def updB (st : StV) (d : Int) (f : Bk → Bk) : StV :=
  { st with cacheL :=
      match st.cache d with
      | some b => (d, f b) :: dropKey st.cacheL d
      | none => st.cacheL }

/-- Install a fresh bucket at a depth. -/
def putB (st : StV) (d : Int) (b : Bk) : StV :=
  { st with cacheL := (d, b) :: dropKey st.cacheL d }

/-- Heap array write. -/
def putH (st : StV) (i : Nat) (v : Option Int) : StV :=
  { st with heapL :=
      match v with
      | some x => (i, x) :: dropKey st.heapL i
      | none => dropKey st.heapL i }

/-- Append a v4 event. -/
def recV (e : Ev) (st : StV) : StV := { st with evs := st.evs ++ [e] }

/-- The `heapUp` sift of the scheduler (compares bucket depths). -/
def heapUp : Nat → Int → Nat → StV → StV
  | 0, _, _, st => { st with oom := true }
  | _ + 1, _, 0, st => st
  | fuel + 1, d, i + 1, st =>
    let j := i / 2
    match st.heap j with
    | some pd =>
      if d < pd then
        let st := putH st (i + 1) (some pd)
        let st := updB st pd fun b => { b with slot := some (i + 1) }
        let st := putH st j (some d)
        let st := updB st d fun b => { b with slot := some j }
        heapUp fuel d j st
      else st
    | none => st

/-- The `heapDown` sift of the scheduler. -/
def heapDown : Nat → Int → Nat → StV → StV
  | 0, _, _, st => { st with oom := true }
  | fuel + 1, d, i, st =>
    let lhs := 2 * i + 1
    let rhs := lhs + 1
    let cand1 : Option (Nat × Int) :=
      if lhs < st.heapSize then
        match st.heap lhs with
        | some ld => if ld < d then some (lhs, ld) else none
        | none => none
      else none
    let best : Option (Nat × Int) :=
      if rhs < st.heapSize then
        match st.heap rhs with
        | some rd =>
          let cur := match cand1 with
            | some (_, cd) => cd
            | none => d
          if rd < cur then some (rhs, rd) else cand1
        | none => cand1
      else cand1
    match best with
    | none => st
    | some (j, pd) =>
      let st := putH st i (some pd)
      let st := updB st pd fun b => { b with slot := some i }
      let st := putH st j (some d)
      let st := updB st d fun b => { b with slot := some j }
      heapDown fuel d j st

/-- One unlink step of v4's `unlink` drain (same splice as v2's
`endTracking`, with the prune branch setting `stale` and resetting
`depth` to `-1`). -/
def unlinkBody (l : Nat) (st : StV) : Option Nat × StV :=
  let lk := st.links l
  let dep := lk.dep
  let st :=
    match lk.nextSub with
    | some ns => updL st ns fun x => { x with prevSub := lk.prevSub }
    | none => updN st dep fun n => { n with subsTail := lk.prevSub }
  let st :=
    match lk.prevSub with
    | some ps => updL st ps fun x => { x with nextSub := lk.nextSub }
    | none => updN st dep fun n => { n with subsHead := lk.nextSub }
  let dn := st.nodes dep
  if dn.subsHead = none ∧ dn.depsHead ≠ none then
    let st := updN st dep fun n => { n with stale := true, depth := -1 }
    let st :=
      match dn.depsTail with
      | some dt => updL st dt fun x => { x with nextDep := lk.nextDep }
      | none => st
    let st := updN st dep fun n => { n with depsHead := none, depsTail := none }
    (dn.depsHead, st)
  else (lk.nextDep, st)

/-- The fueled drain loop of v4's `unlink`. -/
def unlinkLoop : Nat → Option Nat → StV → StV
  | _, none, st => st
  | 0, some _, st => { st with oom := true }
  | fuel + 1, some l, st =>
    let p15 := unlinkBody l st
    let nxt := p15.1
    let st := p15.2
    unlinkLoop fuel nxt st

/-- The `unlink(sub)` of `src/v4/index.ts`: drop every dep link
strictly after `depsTail`. -/
def unlinkV (fuel : Nat) (sub : Nat) (st : StV) : StV :=
  let depsTail := (st.nodes sub).depsTail
  let p110 :=
    match depsTail with
    | none =>
      ((st.nodes sub).depsHead, updN st sub fun n => { n with depsHead := none })
    | some dt =>
      match (st.links dt).nextDep with
      | some nd => (some nd, updL st dt fun l => { l with nextDep := none })
      | none => (none, st)
  let start := p110.1
  let st := p110.2
  unlinkLoop fuel start st

/-- The out-of-order scan of `run`: walk `sub.depsHead` up to
`prevDep`, stamping `subId`/`subRunId` on every scanned dep; report
whether the dep being read was already consumed this run. -/
def scanLoop : Nat → Nat → Nat → Nat → Option Nat → Option Nat → StV → Bool × StV
  | 0, _, _, _, _, _, st => (false, { st with oom := true })
  | fuel + 1, subId, runId, depN, prevDep, cur, st =>
    match cur with
    | none => (false, st)
    | some l =>
      let ld := (st.links l).dep
      let st := updN st ld fun n => { n with subId := some subId, subRunId := some runId }
      if ld = depN then (true, st)
      else if some l = prevDep then (false, st)
      else scanLoop fuel subId runId depN prevDep (st.links l).nextDep st

mutual

/-- The `run(sub)` of `src/v4/index.ts`: the reentrancy guard (report a
circular dependency, abort, mark `recursive`), then resume or start the
generator and drive it. -/
def runV : Nat → Nat → StV → StV
  | 0, _, st => { st with oom := true }
  | fuel + 1, nid, st =>
    let n := st.nodes nid
    if n.running then
      let st := recV (Ev.cycleInit nid) st
      updN st nid fun x => { x with gen := none, running := false, recursive := true }
    else
      let st := updN st nid fun x => { x with running := true }
      let n := st.nodes nid
      let subId := n.id
      let depth := n.depth
      match n.gen with
      | some g =>
        let st := updN st nid fun x => { x with gen := none }
        runLoop fuel nid subId n.runId depth (depth - 1) n.depsTail true g st
      | none =>
        match n.fn with
        | some p =>
          let st := updN st nid fun x => { x with runId := x.runId + 1 }
          runLoop fuel nid subId (n.runId + 1) depth (depth - 1) none false p.start st
        | none => runTail fuel nid none (depth - 1) depth none st
termination_by structural _fuel _nid _st => _fuel

/-- The `while (!step.done)` loop of `run`, with the source's locals
(`subId`, `runId`, `depth`, `maxDepth`, `prevDep`, `revisit`) carried
explicitly; `pos` is the generator's current unprocessed step. -/
def runLoop : Nat → Nat → Nat → Nat → Int → Int → Option Nat → Bool → GenPos → StV → StV
  | 0, _, _, _, _, _, _, _, _, st => { st with oom := true }
  | fuel + 1, nid, subId, runId, depth, maxDepth, prevDep, revisit, pos, st =>
    match pos.view with
    | GView.done v => runTail fuel nid prevDep maxDepth depth v st
    | GView.fail =>
      -- the catch block: report, leave `value` undefined, fall through
      let st := recV (Ev.rtError nid) st
      runTail fuel nid prevDep maxDepth depth none st
    | GView.yraw v =>
      let st := recV (Ev.warnNonSignal nid) st
      runLoop fuel nid subId runId depth maxDepth prevDep revisit (pos.next v) st
    | GView.ysig depN =>
      if (st.nodes depN).subId = some subId ∧ (st.nodes depN).subRunId = some runId then
        -- visited within this run: break evaluation
        runLoop fuel nid subId runId depth maxDepth prevDep false
          (pos.next ((st.nodes depN).value)) st
      else
        let nextDep :=
          match prevDep with
          | some pd => (st.links pd).nextDep
          | none => (st.nodes nid).depsHead
        let isNextDep : Bool :=
          match nextDep with
          | some nd => (st.links nd).dep == depN
          | none => false
        let p111 :=
          if !isNextDep && prevDep.isSome then
            scanLoop fuel subId runId depN prevDep (st.nodes nid).depsHead st
          else (false, st)
        let found := p111.1
        let st := p111.2
        if found then
          runLoop fuel nid subId runId depth maxDepth prevDep false
            (pos.next ((st.nodes depN).value)) st
        else
          let depDepth0 := (st.nodes depN).depth
          if (st.nodes depN).stale then
            let st := runV fuel depN st
            runLink fuel nid subId runId depth maxDepth prevDep
              ((st.nodes depN).depth) isNextDep nextDep depN pos st
          else if ¬((st.nodes nid).stale ∨ depth > depDepth0) then
            if revisit then
              let st := recV (Ev.cycleRe nid) st
              -- break evaluation
              runLoop fuel nid subId runId depth maxDepth prevDep false
                (pos.next ((st.nodes depN).value)) st
            else
              -- park: stash the generator position and re-enqueue behind the dep
              let st := updN st nid fun x =>
                { x with gen := some pos, depsTail := prevDep, running := false }
              let st :=
                if ¬(st.nodes depN).recursive then enqueueOne fuel nid depDepth0 st
                else st
              if ¬st.isFlushing then flushV fuel st else st
          else
            runLink fuel nid subId runId depth maxDepth prevDep depDepth0
              isNextDep nextDep depN pos st
termination_by structural _fuel _nid _sid _rid _d _md _pd _rv _pos _st => _fuel

/-- Tail of the `evaluation:` block of `run`: bump `maxDepth`, stamp
the dep as visited, reuse the in-order link or splice in a fresh one,
then resume the generator with the dep's value. -/
def runLink : Nat → Nat → Nat → Nat → Int → Int → Option Nat → Int → Bool →
    Option Nat → Nat → GenPos → StV → StV
  | 0, _, _, _, _, _, _, _, _, _, _, _, st => { st with oom := true }
  | fuel + 1, nid, subId, runId, depth, maxDepth, prevDep, depDepth, isNextDep,
      nextDep, depN, pos, st =>
    let maxDepth := if depDepth > maxDepth then depDepth else maxDepth
    let st := updN st depN fun n => { n with subId := some subId, subRunId := some runId }
    if isNextDep then
      runLoop fuel nid subId runId depth maxDepth nextDep false
        (pos.next ((st.nodes depN).value)) st
    else
      let prevSub := (st.nodes depN).subsTail
      let nl := st.nextLink
      let newL : LinkV :=
        { sub := nid, dep := depN, nextDep := nextDep, prevSub := prevSub, nextSub := none }
      let st := { st with
        linksL := (nl, newL) :: st.linksL,
        nextLink := nl + 1 }
      let st := updN st depN fun n => { n with subsTail := some nl }
      let st :=
        match prevSub with
        | some ps => updL st ps fun x => { x with nextSub := some nl }
        | none => updN st depN fun n => { n with subsHead := some nl }
      let st :=
        match prevDep with
        | some pd => updL st pd fun x => { x with nextDep := some nl }
        | none => updN st nid fun n => { n with depsHead := some nl }
      runLoop fuel nid subId runId depth maxDepth (some nl) false
        (pos.next ((st.nodes depN).value)) st
termination_by structural _fuel _a _b _c _d _e _f _g _h _i _j _k _st => _fuel

/-- Tail of `run` after the generator completes: finalize `depsTail`,
clear `stale`/`running`, take the new depth, unlink leftovers, store a
changed value and enqueue subscribers (unless marked `recursive`). -/
def runTail : Nat → Nat → Option Nat → Int → Int → Value → StV → StV
  | 0, _, _, _, _, _, st => { st with oom := true }
  | fuel + 1, nid, prevDep, maxDepth, depth, value, st =>
    let st := updN st nid fun n =>
      { n with depsTail := prevDep, stale := false, running := false }
    let maxDepth := maxDepth + 1
    let p112 :=
      if maxDepth > depth then (maxDepth, updN st nid fun n => { n with depth := maxDepth })
      else (depth, st)
    let depth := p112.1
    let st := p112.2
    let st := unlinkV fuel nid st
    if (st.nodes nid).value = value then st
    else
      let st := updN st nid fun n => { n with value := value }
      if ¬(st.nodes nid).recursive then
        match (st.nodes nid).subsHead with
        | some l => enqueueChain fuel l depth st
        | none => st
      else st

/-- The scheduler's `enqueue(link, parentDepth)` iterating a real subs
chain (`do … while (link = link.nextSub)`), with the sticky
`pushedDown` local. -/
def enqueueChain : Nat → Nat → Int → StV → StV
  | 0, _, _, st => { st with oom := true }
  | fuel + 1, l, parentDepth, st =>
    enqueueIter fuel l parentDepth false st

/-- One `do`-iteration of `enqueue` plus the loop continuation. -/
def enqueueIter : Nat → Nat → Int → Bool → StV → StV
  | 0, _, _, _, st => { st with oom := true }
  | fuel + 1, l, parentDepth, pushedDown, st =>
    let sub := (st.links l).sub
    let p16 := enqueueBody fuel sub parentDepth pushedDown st
    let st := p16.1
    let pushedDown := p16.2
    match (st.links l).nextSub with
    | some nl => enqueueIter fuel nl parentDepth pushedDown st
    | none => st
termination_by structural _fuel _l _pd _pu _st => _fuel

/-- The module-level single-sub `enqueue(LINK, depth)` call sites of
`index.ts` (the shared `LINK` record with no `nextSub`). -/
def enqueueOne : Nat → Nat → Int → StV → StV
  | 0, _, _, st => { st with oom := true }
  | fuel + 1, sub, parentDepth, st => (enqueueBody fuel sub parentDepth false st).1
termination_by structural _fuel _s _pd _st => _fuel

/-- The per-child body of `enqueue`: keep or push down the child's
depth (removing it from its old bucket if queued), append it to the
bucket of its depth (creating the bucket if needed), (re)insert the
bucket into the heap — reusing a drained heap head in place — and
re-propagate a pushed-down child. -/
def enqueueBody : Nat → Nat → Int → Bool → StV → StV × Bool
  | 0, _, _, pd, st => ({ st with oom := true }, pd)
  | fuel + 1, sub, parentDepth, pushedDown, st =>
    let slot := (st.nodes sub).slot
    let depth0 := (st.nodes sub).depth
    if depth0 > parentDepth ∧ slot.isSome then (st, pushedDown)
    else
      let minDepth := parentDepth + 1
      let p113 :=
        if depth0 > parentDepth then (st, depth0, pushedDown)
        else
          let st :=
            match slot, st.cache depth0 with
            | some sl, some bucket =>
              let i := bucket.size - 1
              let st := updB st depth0 fun b => { b with size := i }
              let st :=
                if sl ≠ i then
                  updB st depth0 fun b => b.setSub sl (b.subs i)
                else st
              updB st depth0 fun b => b.setSub i none
            | _, _ => st
          let st := updN st sub fun n => { n with depth := minDepth }
          (st, minDepth, true)
      let st := p113.1
      let depth := p113.2.1
      let pushedDown := p113.2.2
      let st :=
        match st.cache depth with
        | some bucket =>
          let st := updB st depth fun b =>
            { b.setSub bucket.size (some sub) with size := bucket.size + 1 }
          updN st sub fun n => { n with slot := some bucket.size }
        | none =>
          let bk : Bk :=
            { depth := depth, subsL := [(0, sub)], size := 1, index := 0 }
          let st := putB st depth bk
          updN st sub fun n => { n with slot := some 0 }
      let st :=
        match st.cache depth with
        | some bucket =>
          if bucket.slot = none then
            let headReuse :=
              if st.heapSize ≠ 0 then
                match st.heap 0 with
                | some hd =>
                  match st.cache hd with
                  | some head => if head.index = head.size then some hd else none
                  | none => none
                | none => none
              else none
            match headReuse with
            | some hd =>
              let st := updB st hd fun b => { b with size := 0, index := 0, slot := none }
              let st := putH st 0 (some depth)
              let st := updB st depth fun b => { b with slot := some 0 }
              heapDown fuel depth 0 st
            | none =>
              let pos := st.heapSize
              let st := putH st pos (some depth)
              let st := updB st depth fun b => { b with slot := some pos }
              let st := { st with heapSize := pos + 1 }
              heapUp fuel depth pos st
          else st
        | none => st
      let st := if pushedDown then propagateV fuel sub st else st
      (st, pushedDown)
termination_by structural _fuel _s _pd _pu _st => _fuel

/-- The scheduler's `flush`. -/
def flushV : Nat → StV → StV
  | 0, st => { st with oom := true }
  | fuel + 1, st =>
    if st.heapSize = 0 then st
    else
      let st := { st with isFlushing := true }
      let st := flushOuter fuel st
      { st with isFlushing := false }
termination_by structural _fuel _st => _fuel

/-- The `while (true)` of `flush`: drain the head bucket, then pop it
(unless an `enqueue` during a run already replaced it in place). -/
def flushOuter : Nat → StV → StV
  | 0, st => { st with oom := true }
  | fuel + 1, st =>
    match st.heap 0 with
    | none => { st with oom := true }
    | some hd =>
      match st.cache hd with
      | none => { st with oom := true }
      | some bucket =>
        let st := flushInner fuel hd bucket.index st
        match st.cache hd with
        | none => { st with oom := true }
        | some bucket =>
          if bucket.slot.isSome then
            let st := updB st hd fun b => { b with size := 0, index := 0, slot := none }
            let newSize := st.heapSize - 1
            let moved := st.heap newSize
            let st := putH st 0 moved
            let st := putH st newSize none
            let st := { st with heapSize := newSize }
            if newSize ≠ 0 then
              match moved with
              | some md =>
                let st := updB st md fun b => { b with slot := some 0 }
                let st := heapDown fuel md 0 st
                flushOuter fuel st
              | none => { st with oom := true }
            else st
          else flushOuter fuel st
termination_by structural _fuel _st => _fuel

/-- The inner `while (i < bucket.size)` of `flush`: clear the slot,
advance the index, run the node; the size is re-read each iteration
since a run may enqueue into the same bucket. -/
def flushInner : Nat → Int → Nat → StV → StV
  | 0, _, _, st => { st with oom := true }
  | fuel + 1, hd, i, st =>
    match st.cache hd with
    | none => { st with oom := true }
    | some bucket =>
      if i < bucket.size then
        match bucket.subs i with
        | none => { st with oom := true }
        | some sub =>
          let st := updB st hd fun b => { b.setSub i none with index := i + 1 }
          let st := updN st sub fun n => { n with slot := none }
          let st := runV fuel sub st
          flushInner fuel hd (i + 1) st
      else st
termination_by structural _fuel _hd _i _st => _fuel

/-- The `propagate(dep)` of `index.ts`: push the depth of each
non-recursive, not-deeper subscriber down below the dep, recursing into
unqueued subscribers and re-enqueuing queued ones. -/
def propagateV : Nat → Nat → StV → StV
  | 0, _, st => { st with oom := true }
  | fuel + 1, nid, st =>
    match (st.nodes nid).subsHead with
    | none => st
    | some l =>
      let depDepth := (st.nodes nid).depth
      propChainV fuel l depDepth (depDepth + 1) st
termination_by structural _fuel _nid _st => _fuel

/-- The `do … while` of v4's `propagate`. -/
def propChainV : Nat → Nat → Int → Int → StV → StV
  | 0, _, _, _, st => { st with oom := true }
  | fuel + 1, l, depDepth, minDepth, st =>
    let sub := (st.links l).sub
    let st :=
      if (st.nodes sub).recursive ∨ (st.nodes sub).depth > depDepth then st
      else if (st.nodes sub).slot = none then
        let st := updN st sub fun n => { n with depth := minDepth }
        propagateV fuel sub st
      else enqueueOne fuel sub depDepth st
    match (st.links l).nextSub with
    | some nl => propChainV fuel nl depDepth minDepth st
    | none => st
termination_by structural _fuel _l _dd _md _st => _fuel

end

/-- The argument of `SOURCE_PROTO.set`: a plain value or an updater
function of the old value. -/
inductive SetArg where
  | val (v : Value)
  | upd (f : Value → Value)

/-- The `SOURCE_PROTO.set` of `index.ts`: resolve an updater, ignore
equal writes, store, and when subscribers exist enqueue them below
depth `-1` and flush outside a batch. -/
def setV (fuel : Nat) (nid : Nat) (arg : SetArg) (st : StV) : StV :=
  let oldValue := (st.nodes nid).value
  let value :=
    match arg with
    | SetArg.val v => v
    | SetArg.upd f => f oldValue
  if value = oldValue then st
  else
    let st := updN st nid fun n => { n with value := value }
    match (st.nodes nid).subsHead with
    | none => st
    | some subs =>
      let st := enqueueChain fuel subs (-1) st
      if st.batchDepth = 0 then flushV fuel st else st

/-- The `DERIVED_PROTO.get` of `index.ts`: run a stale derived and
return its value. -/
def getV (fuel : Nat) (nid : Nat) (st : StV) : StV × Value :=
  let st := if (st.nodes nid).stale then runV fuel nid st else st
  (st, (st.nodes nid).value)

/-- The `SOURCE_PROTO.get`. -/
def getSrcV (nid : Nat) (st : StV) : Value := (st.nodes nid).value

/-- Creation of a v4 source signal. -/
def mkSourceV (v : Value) (st : StV) : Nat × StV :=
  (st.nextNode,
    updN { st with nextNode := st.nextNode + 1 } st.nextNode
      fun _ => { id := st.nextNode, depth := -1, value := v })

/-- Creation of a v4 derived signal (generator body, `stale` at
birth). -/
def mkDerivedV (p : GenP) (st : StV) : Nat × StV :=
  (st.nextNode,
    updN { st with nextNode := st.nextNode + 1 } st.nextNode
      fun _ => { id := st.nextNode, depth := 0, stale := true, fn := some p })

end V4

/-! Concrete scenarios used by the claim theorems. -/

namespace V2

/-! Diamond scenario of C1: source `s`, `a = s+1`, `b = s+2`,
`c = a+b`, effect `e = sink(c)`; then a single `s = 10` write outside
any batch. -/

def diaS : Nat × St := mkSource (some 1) St.init
def diaA : Nat × St := mkComputed (Expr.app1 (Op1.inc 1) (Expr.read diaS.1)) diaS.2
def diaB : Nat × St := mkComputed (Expr.app1 (Op1.inc 2) (Expr.read diaS.1)) diaA.2
def diaC : Nat × St :=
  mkComputed (Expr.app2 Op2.add (Expr.read diaA.1) (Expr.read diaB.1)) diaB.2
def diaE : Nat × St := mkEffect 100 (Expr.read diaC.1) diaC.2
def diaSetup : St := diaE.2
def diaWritten : St := sourceSet 100 diaS.1 (some 10) diaSetup
/-- Trace of the write alone. -/
def diaDelta : List Ev := diaWritten.evs.drop diaSetup.evs.length

/-! Batch scenario of C4: sources `a = 1`, `b = 1`, `c = a+b`, effect
`e = record(c)`; in one batch set `a = 10` then `b = 20`. -/

def batA : Nat × St := mkSource (some 1) St.init
def batB : Nat × St := mkSource (some 1) batA.2
def batC : Nat × St :=
  mkComputed (Expr.app2 Op2.add (Expr.read batA.1) (Expr.read batB.1)) batB.2
def batE : Nat × St := mkEffect 100 (Expr.read batC.1) batC.2
def batSetup : St := batE.2
def batDone : St :=
  batchRun 200
    (fun st => sourceSet 200 batB.1 (some 20) (sourceSet 200 batA.1 (some 10) st))
    batSetup
def batDelta : List Ev := batDone.evs.drop batSetup.evs.length

/-! Tracking scenario of C2: sources `K`, `A`, `B`, `D` and a computed
`c` whose body reads `K, A, B, D` when `K` is truthy and `K, A, D, B`
otherwise.  First read with `K = 1`, then `K := 0` and read again: the
second run calls `link` with `K`, `A`, `D`, `B`. -/

def c2K : Nat × St := mkSource (some 1) St.init
def c2A : Nat × St := mkSource (some 10) c2K.2
def c2B : Nat × St := mkSource (some 20) c2A.2
def c2D : Nat × St := mkSource (some 30) c2B.2
def c2fn : Expr :=
  Expr.cond (Expr.read c2K.1)
    (Expr.app2 Op2.add (Expr.read c2A.1)
      (Expr.app2 Op2.add (Expr.read c2B.1) (Expr.read c2D.1)))
    (Expr.app2 Op2.add (Expr.read c2A.1)
      (Expr.app2 Op2.add (Expr.read c2D.1) (Expr.read c2B.1)))
def c2C : Nat × St := mkComputed c2fn c2D.2
def c2Run1 : St := (readSignal 100 c2C.1 c2C.2).1
def c2Flip : St := sourceSet 100 c2K.1 (some 0) c2Run1
def c2Run2 : St := (readSignal 100 c2C.1 c2Flip).1
/-- Writing `D` after the reordered run. -/
def c2WriteD : St := sourceSet 100 c2D.1 (some 300) c2Run2

/-! Pruning scenario of C6: source `s`, `d = s+1`, an effect reading
`d`; dispose the effect, write `s`, then read `d`. -/

def prS : Nat × St := mkSource (some 1) St.init
def prD : Nat × St := mkComputed (Expr.app1 (Op1.inc 1) (Expr.read prS.1)) prS.2
def prE : Nat × St := mkEffect 100 (Expr.read prD.1) prD.2
def prDisposed : St := dispose 100 prE.1 prE.2
def prWritten : St := sourceSet 100 prS.1 (some 7) prDisposed
def prRead : St × Value := readSignal 100 prD.1 prWritten

/-! Direct-plus-derived scenario refuting C3's "only" clause: source
`s`, `a` reads `s`, `b` reads `s` and `a`, `cOnly` reads `a`; links are
established by reading `b` then `cOnly`, then `s` is written. -/

def t3S : Nat × St := mkSource (some 1) St.init
def t3A : Nat × St := mkComputed (Expr.app1 (Op1.inc 0) (Expr.read t3S.1)) t3S.2
def t3B : Nat × St :=
  mkComputed (Expr.app2 Op2.add (Expr.read t3S.1) (Expr.read t3A.1)) t3A.2
def t3C : Nat × St := mkComputed (Expr.app1 (Op1.inc 0) (Expr.read t3A.1)) t3B.2
def t3Setup : St := (readSignal 100 t3C.1 (readSignal 100 t3B.1 t3C.2).1).1
def t3W : St := sourceSet 100 t3S.1 (some 5) t3Setup

/-! Double-recompute scenario refuting C9's "at most once": source `s`,
`q` reads `s`, `d = q+1`, and `n` reads `s`, `d`, `q`; after a write to
`s`, the first read of `n` recomputes `q` inside a dirty check whose
shallow propagation re-marks `n` STALE mid-run, so the next read
recomputes `n` again. -/

def n9S : Nat × St := mkSource (some 1) St.init
def n9Q : Nat × St := mkComputed (Expr.app1 (Op1.inc 0) (Expr.read n9S.1)) n9S.2
def n9D : Nat × St := mkComputed (Expr.app1 (Op1.inc 1) (Expr.read n9Q.1)) n9Q.2
def n9N : Nat × St :=
  mkComputed (Expr.app2 Op2.add (Expr.read n9S.1)
    (Expr.app2 Op2.add (Expr.read n9D.1) (Expr.read n9Q.1))) n9D.2
def n9Setup : St := (readSignal 100 n9N.1 n9N.2).1
def n9W : St := sourceSet 100 n9S.1 (some 2) n9Setup
def n9R1 : St × Value := readSignal 100 n9N.1 n9W
def n9R2 : St × Value := readSignal 100 n9N.1 n9R1.1
def n9Delta : List Ev := n9R2.1.evs.drop n9W.evs.length

/-! Throwing-compute scenario of C5: source `s = 1`, `d` computes `s`
when `s < 2` and throws otherwise, an effect `e` reading `d`; plus an
independent pair `x`, `e2` to observe that the engine keeps working.
Writing `s = 5` makes `d`'s recomputation throw. -/

def c5S : Nat × St := mkSource (some 1) St.init
def c5D : Nat × St :=
  mkComputed (Expr.cond (Expr.app1 Op1.small2 (Expr.read c5S.1))
    (Expr.read c5S.1) Expr.fail) c5S.2
def c5E : Nat × St := mkEffect 100 (Expr.read c5D.1) c5D.2
def c5X : Nat × St := mkSource (some 3) c5E.2
def c5E2 : Nat × St := mkEffect 100 (Expr.read c5X.1) c5X.2
def c5Setup : St := c5E2.2
def c5W : St := sourceSet 100 c5S.1 (some 5) c5Setup
def c5Delta : List Ev := c5W.evs.drop c5Setup.evs.length
/-- A later, unrelated write that must behave normally. -/
def c5W2 : St := sourceSet 100 c5X.1 (some 7) c5W
def c5Delta2 : List Ev := c5W2.evs.drop c5W.evs.length

/-- Witness state for C3: one source (node 0) with a single effect
subscriber (node 1) through link 0. -/
def w3St : St :=
  { nodesL := [(1, { flags := EFFECT, kind := Kind.eff }),
               (0, { currentValue := some 1 })],
    linksL := [(0, { sub := 1, dep := 0 })] }

/-- Witness state for C5: a single computed node whose body always
throws. -/
def w5St : St := (mkComputed Expr.fail St.init).2

/-- Witness state for C4's in-batch clause: an empty state one batch
deep. -/
def w4In : St := { batchDepth := 1 }

end V2

namespace V4

/-! Cycle scenario of C7: derived node `0` reads itself (its body
yields its own signal and returns the reply, or 42 for `undefined`);
first read. -/

def selfD : Nat × StV :=
  mkDerivedV { targets := [GTgt.sig 0], fin := GFin.lastOr 42 } StV.init
def selfRead : StV × Value := getV 50 selfD.1 selfD.2
def selfRead2 : StV × Value := getV 50 selfD.1 selfRead.1

/-! Transitive cycle of C7: source `s`, derived `d` reads `s` then
itself; after the first read, a write to the non-cyclic dep `s`. -/

def tcS : Nat × StV := mkSourceV (some 1) StV.init
def tcD : Nat × StV :=
  mkDerivedV { targets := [GTgt.sig tcS.1, GTgt.sig 1], fin := GFin.lastOr 42 } tcS.2
def tcRead : StV × Value := getV 80 tcD.1 tcD.2
def tcWrite : StV := setV 80 tcS.1 (SetArg.val (some 5)) tcRead.1

/-- Witness state for C7's reentrancy equation: node 0 has its RUNNING
guard set. -/
def w7Run : StV := updN StV.init 0 fun x => { x with running := true }

/-- Witness state for C7's propagation-skip equation: link 0 leads to
node 3, which is marked recursive. -/
def w7Prop : StV :=
  updL (updN StV.init 3 fun n => { n with recursive := true }) 0
    fun x => { x with sub := 3 }

end V4

/-! Stage literals: the evaluated states of each scenario phase,
printed back as terms, with one equation theorem per phase.  Cutting
the executions at these literals keeps each `decide` evaluation small.
-/

namespace V2

/-- Evaluated state literal of stage `diaSetup`. -/
def diaSetupLit : St :=
  { nodesL := [(4,
                { subsHead := none,
                  subsTail := none,
                  depsHead := some 0,
                  depsTail := some 0,
                  depId := none,
                  activeRun := none,
                  prevRun := none,
                  flags := 2,
                  currentValue := none,
                  fn := some (SignalsLab.V2.Expr.read 3),
                  version := 4,
                  kind := SignalsLab.V2.Kind.eff }),
               (3,
                { subsHead := some 0,
                  subsTail := some 0,
                  depsHead := some 1,
                  depsTail := some 3,
                  depId := some 0,
                  activeRun := some 0,
                  prevRun := none,
                  flags := 1,
                  currentValue := some 5,
                  fn := some (SignalsLab.V2.Expr.app2
                          (SignalsLab.V2.Op2.add)
                          (SignalsLab.V2.Expr.read 1)
                          (SignalsLab.V2.Expr.read 2)),
                  version := 3,
                  kind := SignalsLab.V2.Kind.comp }),
               (2,
                { subsHead := some 3,
                  subsTail := some 3,
                  depsHead := some 4,
                  depsTail := some 4,
                  depId := some 3,
                  activeRun := none,
                  prevRun := none,
                  flags := 1,
                  currentValue := some 3,
                  fn := some (SignalsLab.V2.Expr.app1 (SignalsLab.V2.Op1.inc 2) (SignalsLab.V2.Expr.read 0)),
                  version := 2,
                  kind := SignalsLab.V2.Kind.comp }),
               (0,
                { subsHead := some 2,
                  subsTail := some 4,
                  depsHead := none,
                  depsTail := none,
                  depId := some 2,
                  activeRun := none,
                  prevRun := none,
                  flags := 0,
                  currentValue := some 1,
                  fn := none,
                  version := 0,
                  kind := SignalsLab.V2.Kind.src }),
               (1,
                { subsHead := some 1,
                  subsTail := some 1,
                  depsHead := some 2,
                  depsTail := some 2,
                  depId := some 1,
                  activeRun := none,
                  prevRun := none,
                  flags := 1,
                  currentValue := some 2,
                  fn := some (SignalsLab.V2.Expr.app1 (SignalsLab.V2.Op1.inc 1) (SignalsLab.V2.Expr.read 0)),
                  version := 1,
                  kind := SignalsLab.V2.Kind.comp })],
    linksL := [(2, { sub := 1, dep := 0, prevSub := none, nextSub := some 4, nextDep := none }),
               (4, { sub := 2, dep := 0, prevSub := some 2, nextSub := none, nextDep := none }),
               (1, { sub := 3, dep := 1, prevSub := none, nextSub := none, nextDep := some 3 }),
               (3, { sub := 3, dep := 2, prevSub := none, nextSub := none, nextDep := none }),
               (0, { sub := 4, dep := 3, prevSub := none, nextSub := none, nextDep := none })],
    mapsL := [(0, [(3, 3), (1, 1)])],
    nextNode := 5,
    nextLink := 5,
    nextMap := 1,
    nextId := 4,
    version := 4,
    activeSub := none,
    activeRoot := none,
    batchQueue := [],
    batchIndex := 0,
    batchDepth := 0,
    evs := [SignalsLab.Ev.computeCall 3,
            SignalsLab.Ev.computeCall 1,
            SignalsLab.Ev.computeCall 2,
            SignalsLab.Ev.effectRun 4 (some (some 5))],
    oom := false,
    exn := false }

/-- Evaluated state literal of stage `diaWritten`. -/
def diaWrittenLit : St :=
  { nodesL := [(4,
                { subsHead := none,
                  subsTail := none,
                  depsHead := some 0,
                  depsTail := some 0,
                  depId := none,
                  activeRun := none,
                  prevRun := none,
                  flags := 2,
                  currentValue := none,
                  fn := some (SignalsLab.V2.Expr.read 3),
                  version := 9,
                  kind := SignalsLab.V2.Kind.eff }),
               (3,
                { subsHead := some 0,
                  subsTail := some 0,
                  depsHead := some 1,
                  depsTail := some 3,
                  depId := some 0,
                  activeRun := some 0,
                  prevRun := none,
                  flags := 1,
                  currentValue := some 23,
                  fn := some (SignalsLab.V2.Expr.app2
                          (SignalsLab.V2.Op2.add)
                          (SignalsLab.V2.Expr.read 1)
                          (SignalsLab.V2.Expr.read 2)),
                  version := 8,
                  kind := SignalsLab.V2.Kind.comp }),
               (2,
                { subsHead := some 3,
                  subsTail := some 3,
                  depsHead := some 4,
                  depsTail := some 4,
                  depId := some 3,
                  activeRun := none,
                  prevRun := none,
                  flags := 1,
                  currentValue := some 12,
                  fn := some (SignalsLab.V2.Expr.app1 (SignalsLab.V2.Op1.inc 2) (SignalsLab.V2.Expr.read 0)),
                  version := 7,
                  kind := SignalsLab.V2.Kind.comp }),
               (1,
                { subsHead := some 1,
                  subsTail := some 1,
                  depsHead := some 2,
                  depsTail := some 2,
                  depId := some 1,
                  activeRun := none,
                  prevRun := none,
                  flags := 1,
                  currentValue := some 11,
                  fn := some (SignalsLab.V2.Expr.app1 (SignalsLab.V2.Op1.inc 1) (SignalsLab.V2.Expr.read 0)),
                  version := 6,
                  kind := SignalsLab.V2.Kind.comp }),
               (0,
                { subsHead := some 2,
                  subsTail := some 4,
                  depsHead := none,
                  depsTail := none,
                  depId := some 2,
                  activeRun := none,
                  prevRun := none,
                  flags := 0,
                  currentValue := some 10,
                  fn := none,
                  version := 5,
                  kind := SignalsLab.V2.Kind.src })],
    linksL := [(2, { sub := 1, dep := 0, prevSub := none, nextSub := some 4, nextDep := none }),
               (4, { sub := 2, dep := 0, prevSub := some 2, nextSub := none, nextDep := none }),
               (1, { sub := 3, dep := 1, prevSub := none, nextSub := none, nextDep := some 3 }),
               (3, { sub := 3, dep := 2, prevSub := none, nextSub := none, nextDep := none }),
               (0, { sub := 4, dep := 3, prevSub := none, nextSub := none, nextDep := none })],
    mapsL := [(0, [(3, 3), (1, 1)])],
    nextNode := 5,
    nextLink := 5,
    nextMap := 1,
    nextId := 4,
    version := 9,
    activeSub := none,
    activeRoot := none,
    batchQueue := [],
    batchIndex := 0,
    batchDepth := 0,
    evs := [SignalsLab.Ev.computeCall 3,
            SignalsLab.Ev.computeCall 1,
            SignalsLab.Ev.computeCall 2,
            SignalsLab.Ev.effectRun 4 (some (some 5)),
            SignalsLab.Ev.computeCall 1,
            SignalsLab.Ev.computeCall 3,
            SignalsLab.Ev.computeCall 2,
            SignalsLab.Ev.effectRun 4 (some (some 23))],
    oom := false,
    exn := false }

/-- Evaluated state literal of stage `batSetup`. -/
def batSetupLit : St :=
  { nodesL := [(3,
                { subsHead := none,
                  subsTail := none,
                  depsHead := some 0,
                  depsTail := some 0,
                  depId := none,
                  activeRun := none,
                  prevRun := none,
                  flags := 2,
                  currentValue := none,
                  fn := some (SignalsLab.V2.Expr.read 2),
                  version := 2,
                  kind := SignalsLab.V2.Kind.eff }),
               (2,
                { subsHead := some 0,
                  subsTail := some 0,
                  depsHead := some 1,
                  depsTail := some 2,
                  depId := some 0,
                  activeRun := some 0,
                  prevRun := none,
                  flags := 1,
                  currentValue := some 2,
                  fn := some (SignalsLab.V2.Expr.app2
                          (SignalsLab.V2.Op2.add)
                          (SignalsLab.V2.Expr.read 0)
                          (SignalsLab.V2.Expr.read 1)),
                  version := 1,
                  kind := SignalsLab.V2.Kind.comp }),
               (1,
                { subsHead := some 2,
                  subsTail := some 2,
                  depsHead := none,
                  depsTail := none,
                  depId := some 2,
                  activeRun := none,
                  prevRun := none,
                  flags := 0,
                  currentValue := some 1,
                  fn := none,
                  version := 0,
                  kind := SignalsLab.V2.Kind.src }),
               (0,
                { subsHead := some 1,
                  subsTail := some 1,
                  depsHead := none,
                  depsTail := none,
                  depId := some 1,
                  activeRun := none,
                  prevRun := none,
                  flags := 0,
                  currentValue := some 1,
                  fn := none,
                  version := 0,
                  kind := SignalsLab.V2.Kind.src })],
    linksL := [(1, { sub := 2, dep := 0, prevSub := none, nextSub := none, nextDep := some 2 }),
               (2, { sub := 2, dep := 1, prevSub := none, nextSub := none, nextDep := none }),
               (0, { sub := 3, dep := 2, prevSub := none, nextSub := none, nextDep := none })],
    mapsL := [(0, [(2, 2), (1, 1)])],
    nextNode := 4,
    nextLink := 3,
    nextMap := 1,
    nextId := 3,
    version := 2,
    activeSub := none,
    activeRoot := none,
    batchQueue := [],
    batchIndex := 0,
    batchDepth := 0,
    evs := [SignalsLab.Ev.computeCall 2, SignalsLab.Ev.effectRun 3 (some (some 2))],
    oom := false,
    exn := false }

/-- Evaluated state literal of stage `batDone`. -/
def batDoneLit : St :=
  { nodesL := [(3,
                { subsHead := none,
                  subsTail := none,
                  depsHead := some 0,
                  depsTail := some 0,
                  depId := none,
                  activeRun := none,
                  prevRun := none,
                  flags := 2,
                  currentValue := none,
                  fn := some (SignalsLab.V2.Expr.read 2),
                  version := 6,
                  kind := SignalsLab.V2.Kind.eff }),
               (2,
                { subsHead := some 0,
                  subsTail := some 0,
                  depsHead := some 1,
                  depsTail := some 2,
                  depId := some 0,
                  activeRun := some 0,
                  prevRun := none,
                  flags := 1,
                  currentValue := some 30,
                  fn := some (SignalsLab.V2.Expr.app2
                          (SignalsLab.V2.Op2.add)
                          (SignalsLab.V2.Expr.read 0)
                          (SignalsLab.V2.Expr.read 1)),
                  version := 5,
                  kind := SignalsLab.V2.Kind.comp }),
               (1,
                { subsHead := some 2,
                  subsTail := some 2,
                  depsHead := none,
                  depsTail := none,
                  depId := some 2,
                  activeRun := none,
                  prevRun := none,
                  flags := 0,
                  currentValue := some 20,
                  fn := none,
                  version := 4,
                  kind := SignalsLab.V2.Kind.src }),
               (0,
                { subsHead := some 1,
                  subsTail := some 1,
                  depsHead := none,
                  depsTail := none,
                  depId := some 1,
                  activeRun := none,
                  prevRun := none,
                  flags := 0,
                  currentValue := some 10,
                  fn := none,
                  version := 3,
                  kind := SignalsLab.V2.Kind.src })],
    linksL := [(1, { sub := 2, dep := 0, prevSub := none, nextSub := none, nextDep := some 2 }),
               (2, { sub := 2, dep := 1, prevSub := none, nextSub := none, nextDep := none }),
               (0, { sub := 3, dep := 2, prevSub := none, nextSub := none, nextDep := none })],
    mapsL := [(0, [(2, 2), (1, 1)])],
    nextNode := 4,
    nextLink := 3,
    nextMap := 1,
    nextId := 3,
    version := 6,
    activeSub := none,
    activeRoot := none,
    batchQueue := [],
    batchIndex := 0,
    batchDepth := 0,
    evs := [SignalsLab.Ev.computeCall 2,
            SignalsLab.Ev.effectRun 3 (some (some 2)),
            SignalsLab.Ev.computeCall 2,
            SignalsLab.Ev.effectRun 3 (some (some 30))],
    oom := false,
    exn := false }

/-- Evaluated state literal of stage `c2Run1`. -/
def c2Run1Lit : St :=
  { nodesL := [(4,
                { subsHead := none,
                  subsTail := none,
                  depsHead := some 0,
                  depsTail := some 3,
                  depId := none,
                  activeRun := some 0,
                  prevRun := none,
                  flags := 1,
                  currentValue := some 60,
                  fn := some (SignalsLab.V2.Expr.cond
                          (SignalsLab.V2.Expr.read 0)
                          (SignalsLab.V2.Expr.app2
                            (SignalsLab.V2.Op2.add)
                            (SignalsLab.V2.Expr.read 1)
                            (SignalsLab.V2.Expr.app2
                              (SignalsLab.V2.Op2.add)
                              (SignalsLab.V2.Expr.read 2)
                              (SignalsLab.V2.Expr.read 3)))
                          (SignalsLab.V2.Expr.app2
                            (SignalsLab.V2.Op2.add)
                            (SignalsLab.V2.Expr.read 1)
                            (SignalsLab.V2.Expr.app2
                              (SignalsLab.V2.Op2.add)
                              (SignalsLab.V2.Expr.read 3)
                              (SignalsLab.V2.Expr.read 2)))),
                  version := 1,
                  kind := SignalsLab.V2.Kind.comp }),
               (3,
                { subsHead := some 3,
                  subsTail := some 3,
                  depsHead := none,
                  depsTail := none,
                  depId := some 3,
                  activeRun := none,
                  prevRun := none,
                  flags := 0,
                  currentValue := some 30,
                  fn := none,
                  version := 0,
                  kind := SignalsLab.V2.Kind.src }),
               (2,
                { subsHead := some 2,
                  subsTail := some 2,
                  depsHead := none,
                  depsTail := none,
                  depId := some 2,
                  activeRun := none,
                  prevRun := none,
                  flags := 0,
                  currentValue := some 20,
                  fn := none,
                  version := 0,
                  kind := SignalsLab.V2.Kind.src }),
               (1,
                { subsHead := some 1,
                  subsTail := some 1,
                  depsHead := none,
                  depsTail := none,
                  depId := some 1,
                  activeRun := none,
                  prevRun := none,
                  flags := 0,
                  currentValue := some 10,
                  fn := none,
                  version := 0,
                  kind := SignalsLab.V2.Kind.src }),
               (0,
                { subsHead := some 0,
                  subsTail := some 0,
                  depsHead := none,
                  depsTail := none,
                  depId := some 0,
                  activeRun := none,
                  prevRun := none,
                  flags := 0,
                  currentValue := some 1,
                  fn := none,
                  version := 0,
                  kind := SignalsLab.V2.Kind.src })],
    linksL := [(2, { sub := 4, dep := 2, prevSub := none, nextSub := none, nextDep := some 3 }),
               (3, { sub := 4, dep := 3, prevSub := none, nextSub := none, nextDep := none }),
               (1, { sub := 4, dep := 1, prevSub := none, nextSub := none, nextDep := some 2 }),
               (0, { sub := 4, dep := 0, prevSub := none, nextSub := none, nextDep := some 1 })],
    mapsL := [(0, [(3, 3), (2, 2), (1, 1), (0, 0)])],
    nextNode := 5,
    nextLink := 4,
    nextMap := 1,
    nextId := 4,
    version := 1,
    activeSub := none,
    activeRoot := none,
    batchQueue := [],
    batchIndex := 0,
    batchDepth := 0,
    evs := [SignalsLab.Ev.computeCall 4],
    oom := false,
    exn := false }

/-- Evaluated state literal of stage `c2Flip`. -/
def c2FlipLit : St :=
  { nodesL := [(4,
                { subsHead := none,
                  subsTail := none,
                  depsHead := some 0,
                  depsTail := some 3,
                  depId := none,
                  activeRun := some 0,
                  prevRun := none,
                  flags := 5,
                  currentValue := some 60,
                  fn := some (SignalsLab.V2.Expr.cond
                          (SignalsLab.V2.Expr.read 0)
                          (SignalsLab.V2.Expr.app2
                            (SignalsLab.V2.Op2.add)
                            (SignalsLab.V2.Expr.read 1)
                            (SignalsLab.V2.Expr.app2
                              (SignalsLab.V2.Op2.add)
                              (SignalsLab.V2.Expr.read 2)
                              (SignalsLab.V2.Expr.read 3)))
                          (SignalsLab.V2.Expr.app2
                            (SignalsLab.V2.Op2.add)
                            (SignalsLab.V2.Expr.read 1)
                            (SignalsLab.V2.Expr.app2
                              (SignalsLab.V2.Op2.add)
                              (SignalsLab.V2.Expr.read 3)
                              (SignalsLab.V2.Expr.read 2)))),
                  version := 1,
                  kind := SignalsLab.V2.Kind.comp }),
               (0,
                { subsHead := some 0,
                  subsTail := some 0,
                  depsHead := none,
                  depsTail := none,
                  depId := some 0,
                  activeRun := none,
                  prevRun := none,
                  flags := 0,
                  currentValue := some 0,
                  fn := none,
                  version := 2,
                  kind := SignalsLab.V2.Kind.src }),
               (3,
                { subsHead := some 3,
                  subsTail := some 3,
                  depsHead := none,
                  depsTail := none,
                  depId := some 3,
                  activeRun := none,
                  prevRun := none,
                  flags := 0,
                  currentValue := some 30,
                  fn := none,
                  version := 0,
                  kind := SignalsLab.V2.Kind.src }),
               (2,
                { subsHead := some 2,
                  subsTail := some 2,
                  depsHead := none,
                  depsTail := none,
                  depId := some 2,
                  activeRun := none,
                  prevRun := none,
                  flags := 0,
                  currentValue := some 20,
                  fn := none,
                  version := 0,
                  kind := SignalsLab.V2.Kind.src }),
               (1,
                { subsHead := some 1,
                  subsTail := some 1,
                  depsHead := none,
                  depsTail := none,
                  depId := some 1,
                  activeRun := none,
                  prevRun := none,
                  flags := 0,
                  currentValue := some 10,
                  fn := none,
                  version := 0,
                  kind := SignalsLab.V2.Kind.src })],
    linksL := [(2, { sub := 4, dep := 2, prevSub := none, nextSub := none, nextDep := some 3 }),
               (3, { sub := 4, dep := 3, prevSub := none, nextSub := none, nextDep := none }),
               (1, { sub := 4, dep := 1, prevSub := none, nextSub := none, nextDep := some 2 }),
               (0, { sub := 4, dep := 0, prevSub := none, nextSub := none, nextDep := some 1 })],
    mapsL := [(0, [(3, 3), (2, 2), (1, 1), (0, 0)])],
    nextNode := 5,
    nextLink := 4,
    nextMap := 1,
    nextId := 4,
    version := 2,
    activeSub := none,
    activeRoot := none,
    batchQueue := [],
    batchIndex := 0,
    batchDepth := 0,
    evs := [SignalsLab.Ev.computeCall 4],
    oom := false,
    exn := false }

/-- Evaluated state literal of stage `c2Run2`. -/
def c2Run2Lit : St :=
  { nodesL := [(4,
                { subsHead := none,
                  subsTail := none,
                  depsHead := some 0,
                  depsTail := some 2,
                  depId := none,
                  activeRun := some 0,
                  prevRun := none,
                  flags := 1,
                  currentValue := some 60,
                  fn := some (SignalsLab.V2.Expr.cond
                          (SignalsLab.V2.Expr.read 0)
                          (SignalsLab.V2.Expr.app2
                            (SignalsLab.V2.Op2.add)
                            (SignalsLab.V2.Expr.read 1)
                            (SignalsLab.V2.Expr.app2
                              (SignalsLab.V2.Op2.add)
                              (SignalsLab.V2.Expr.read 2)
                              (SignalsLab.V2.Expr.read 3)))
                          (SignalsLab.V2.Expr.app2
                            (SignalsLab.V2.Op2.add)
                            (SignalsLab.V2.Expr.read 1)
                            (SignalsLab.V2.Expr.app2
                              (SignalsLab.V2.Op2.add)
                              (SignalsLab.V2.Expr.read 3)
                              (SignalsLab.V2.Expr.read 2)))),
                  version := 1,
                  kind := SignalsLab.V2.Kind.comp }),
               (3,
                { subsHead := none,
                  subsTail := none,
                  depsHead := none,
                  depsTail := none,
                  depId := some 3,
                  activeRun := none,
                  prevRun := none,
                  flags := 0,
                  currentValue := some 30,
                  fn := none,
                  version := 0,
                  kind := SignalsLab.V2.Kind.src }),
               (0,
                { subsHead := some 0,
                  subsTail := some 0,
                  depsHead := none,
                  depsTail := none,
                  depId := some 0,
                  activeRun := none,
                  prevRun := none,
                  flags := 0,
                  currentValue := some 0,
                  fn := none,
                  version := 2,
                  kind := SignalsLab.V2.Kind.src }),
               (2,
                { subsHead := some 2,
                  subsTail := some 2,
                  depsHead := none,
                  depsTail := none,
                  depId := some 2,
                  activeRun := none,
                  prevRun := none,
                  flags := 0,
                  currentValue := some 20,
                  fn := none,
                  version := 0,
                  kind := SignalsLab.V2.Kind.src }),
               (1,
                { subsHead := some 1,
                  subsTail := some 1,
                  depsHead := none,
                  depsTail := none,
                  depId := some 1,
                  activeRun := none,
                  prevRun := none,
                  flags := 0,
                  currentValue := some 10,
                  fn := none,
                  version := 0,
                  kind := SignalsLab.V2.Kind.src })],
    linksL := [(2, { sub := 4, dep := 2, prevSub := none, nextSub := none, nextDep := none }),
               (3, { sub := 4, dep := 3, prevSub := none, nextSub := none, nextDep := none }),
               (1, { sub := 4, dep := 1, prevSub := none, nextSub := none, nextDep := some 2 }),
               (0, { sub := 4, dep := 0, prevSub := none, nextSub := none, nextDep := some 1 })],
    mapsL := [(0, [(2, 2), (1, 1), (3, 3), (0, 0)])],
    nextNode := 5,
    nextLink := 4,
    nextMap := 1,
    nextId := 4,
    version := 2,
    activeSub := none,
    activeRoot := none,
    batchQueue := [],
    batchIndex := 0,
    batchDepth := 0,
    evs := [SignalsLab.Ev.computeCall 4, SignalsLab.Ev.computeCall 4],
    oom := false,
    exn := false }

/-- Evaluated state literal of stage `c2WriteD`. -/
def c2WriteDLit : St :=
  { nodesL := [(3,
                { subsHead := none,
                  subsTail := none,
                  depsHead := none,
                  depsTail := none,
                  depId := some 3,
                  activeRun := none,
                  prevRun := none,
                  flags := 0,
                  currentValue := some 300,
                  fn := none,
                  version := 0,
                  kind := SignalsLab.V2.Kind.src }),
               (4,
                { subsHead := none,
                  subsTail := none,
                  depsHead := some 0,
                  depsTail := some 2,
                  depId := none,
                  activeRun := some 0,
                  prevRun := none,
                  flags := 1,
                  currentValue := some 60,
                  fn := some (SignalsLab.V2.Expr.cond
                          (SignalsLab.V2.Expr.read 0)
                          (SignalsLab.V2.Expr.app2
                            (SignalsLab.V2.Op2.add)
                            (SignalsLab.V2.Expr.read 1)
                            (SignalsLab.V2.Expr.app2
                              (SignalsLab.V2.Op2.add)
                              (SignalsLab.V2.Expr.read 2)
                              (SignalsLab.V2.Expr.read 3)))
                          (SignalsLab.V2.Expr.app2
                            (SignalsLab.V2.Op2.add)
                            (SignalsLab.V2.Expr.read 1)
                            (SignalsLab.V2.Expr.app2
                              (SignalsLab.V2.Op2.add)
                              (SignalsLab.V2.Expr.read 3)
                              (SignalsLab.V2.Expr.read 2)))),
                  version := 1,
                  kind := SignalsLab.V2.Kind.comp }),
               (0,
                { subsHead := some 0,
                  subsTail := some 0,
                  depsHead := none,
                  depsTail := none,
                  depId := some 0,
                  activeRun := none,
                  prevRun := none,
                  flags := 0,
                  currentValue := some 0,
                  fn := none,
                  version := 2,
                  kind := SignalsLab.V2.Kind.src }),
               (2,
                { subsHead := some 2,
                  subsTail := some 2,
                  depsHead := none,
                  depsTail := none,
                  depId := some 2,
                  activeRun := none,
                  prevRun := none,
                  flags := 0,
                  currentValue := some 20,
                  fn := none,
                  version := 0,
                  kind := SignalsLab.V2.Kind.src }),
               (1,
                { subsHead := some 1,
                  subsTail := some 1,
                  depsHead := none,
                  depsTail := none,
                  depId := some 1,
                  activeRun := none,
                  prevRun := none,
                  flags := 0,
                  currentValue := some 10,
                  fn := none,
                  version := 0,
                  kind := SignalsLab.V2.Kind.src })],
    linksL := [(2, { sub := 4, dep := 2, prevSub := none, nextSub := none, nextDep := none }),
               (3, { sub := 4, dep := 3, prevSub := none, nextSub := none, nextDep := none }),
               (1, { sub := 4, dep := 1, prevSub := none, nextSub := none, nextDep := some 2 }),
               (0, { sub := 4, dep := 0, prevSub := none, nextSub := none, nextDep := some 1 })],
    mapsL := [(0, [(2, 2), (1, 1), (3, 3), (0, 0)])],
    nextNode := 5,
    nextLink := 4,
    nextMap := 1,
    nextId := 4,
    version := 2,
    activeSub := none,
    activeRoot := none,
    batchQueue := [],
    batchIndex := 0,
    batchDepth := 0,
    evs := [SignalsLab.Ev.computeCall 4, SignalsLab.Ev.computeCall 4],
    oom := false,
    exn := false }

/-- Evaluated state literal of stage `prSetup`. -/
def prSetupLit : St :=
  { nodesL := [(2,
                { subsHead := none,
                  subsTail := none,
                  depsHead := some 0,
                  depsTail := some 0,
                  depId := none,
                  activeRun := none,
                  prevRun := none,
                  flags := 2,
                  currentValue := none,
                  fn := some (SignalsLab.V2.Expr.read 1),
                  version := 2,
                  kind := SignalsLab.V2.Kind.eff }),
               (1,
                { subsHead := some 0,
                  subsTail := some 0,
                  depsHead := some 1,
                  depsTail := some 1,
                  depId := some 0,
                  activeRun := none,
                  prevRun := none,
                  flags := 1,
                  currentValue := some 2,
                  fn := some (SignalsLab.V2.Expr.app1 (SignalsLab.V2.Op1.inc 1) (SignalsLab.V2.Expr.read 0)),
                  version := 1,
                  kind := SignalsLab.V2.Kind.comp }),
               (0,
                { subsHead := some 1,
                  subsTail := some 1,
                  depsHead := none,
                  depsTail := none,
                  depId := some 1,
                  activeRun := none,
                  prevRun := none,
                  flags := 0,
                  currentValue := some 1,
                  fn := none,
                  version := 0,
                  kind := SignalsLab.V2.Kind.src })],
    linksL := [(1, { sub := 1, dep := 0, prevSub := none, nextSub := none, nextDep := none }),
               (0, { sub := 2, dep := 1, prevSub := none, nextSub := none, nextDep := none })],
    mapsL := [],
    nextNode := 3,
    nextLink := 2,
    nextMap := 0,
    nextId := 2,
    version := 2,
    activeSub := none,
    activeRoot := none,
    batchQueue := [],
    batchIndex := 0,
    batchDepth := 0,
    evs := [SignalsLab.Ev.computeCall 1, SignalsLab.Ev.effectRun 2 (some (some 2))],
    oom := false,
    exn := false }

/-- Evaluated state literal of stage `prDisposed`. -/
def prDisposedLit : St :=
  { nodesL := [(2,
                { subsHead := none,
                  subsTail := none,
                  depsHead := none,
                  depsTail := none,
                  depId := none,
                  activeRun := none,
                  prevRun := none,
                  flags := 2,
                  currentValue := none,
                  fn := some (SignalsLab.V2.Expr.read 1),
                  version := 2,
                  kind := SignalsLab.V2.Kind.eff }),
               (0,
                { subsHead := none,
                  subsTail := none,
                  depsHead := none,
                  depsTail := none,
                  depId := some 1,
                  activeRun := none,
                  prevRun := none,
                  flags := 0,
                  currentValue := some 1,
                  fn := none,
                  version := 0,
                  kind := SignalsLab.V2.Kind.src }),
               (1,
                { subsHead := none,
                  subsTail := none,
                  depsHead := none,
                  depsTail := none,
                  depId := some 0,
                  activeRun := none,
                  prevRun := none,
                  flags := 5,
                  currentValue := some 2,
                  fn := some (SignalsLab.V2.Expr.app1 (SignalsLab.V2.Op1.inc 1) (SignalsLab.V2.Expr.read 0)),
                  version := 1,
                  kind := SignalsLab.V2.Kind.comp })],
    linksL := [(1, { sub := 1, dep := 0, prevSub := none, nextSub := none, nextDep := none }),
               (0, { sub := 2, dep := 1, prevSub := none, nextSub := none, nextDep := none })],
    mapsL := [],
    nextNode := 3,
    nextLink := 2,
    nextMap := 0,
    nextId := 2,
    version := 2,
    activeSub := none,
    activeRoot := none,
    batchQueue := [],
    batchIndex := 0,
    batchDepth := 0,
    evs := [SignalsLab.Ev.computeCall 1, SignalsLab.Ev.effectRun 2 (some (some 2))],
    oom := false,
    exn := false }

/-- Evaluated state literal of stage `prWritten`. -/
def prWrittenLit : St :=
  { nodesL := [(0,
                { subsHead := none,
                  subsTail := none,
                  depsHead := none,
                  depsTail := none,
                  depId := some 1,
                  activeRun := none,
                  prevRun := none,
                  flags := 0,
                  currentValue := some 7,
                  fn := none,
                  version := 0,
                  kind := SignalsLab.V2.Kind.src }),
               (2,
                { subsHead := none,
                  subsTail := none,
                  depsHead := none,
                  depsTail := none,
                  depId := none,
                  activeRun := none,
                  prevRun := none,
                  flags := 2,
                  currentValue := none,
                  fn := some (SignalsLab.V2.Expr.read 1),
                  version := 2,
                  kind := SignalsLab.V2.Kind.eff }),
               (1,
                { subsHead := none,
                  subsTail := none,
                  depsHead := none,
                  depsTail := none,
                  depId := some 0,
                  activeRun := none,
                  prevRun := none,
                  flags := 5,
                  currentValue := some 2,
                  fn := some (SignalsLab.V2.Expr.app1 (SignalsLab.V2.Op1.inc 1) (SignalsLab.V2.Expr.read 0)),
                  version := 1,
                  kind := SignalsLab.V2.Kind.comp })],
    linksL := [(1, { sub := 1, dep := 0, prevSub := none, nextSub := none, nextDep := none }),
               (0, { sub := 2, dep := 1, prevSub := none, nextSub := none, nextDep := none })],
    mapsL := [],
    nextNode := 3,
    nextLink := 2,
    nextMap := 0,
    nextId := 2,
    version := 2,
    activeSub := none,
    activeRoot := none,
    batchQueue := [],
    batchIndex := 0,
    batchDepth := 0,
    evs := [SignalsLab.Ev.computeCall 1, SignalsLab.Ev.effectRun 2 (some (some 2))],
    oom := false,
    exn := false }

/-- Evaluated state literal of stage `prReadSt`. -/
def prReadStLit : St :=
  { nodesL := [(1,
                { subsHead := none,
                  subsTail := none,
                  depsHead := some 2,
                  depsTail := some 2,
                  depId := some 0,
                  activeRun := none,
                  prevRun := none,
                  flags := 1,
                  currentValue := some 8,
                  fn := some (SignalsLab.V2.Expr.app1 (SignalsLab.V2.Op1.inc 1) (SignalsLab.V2.Expr.read 0)),
                  version := 3,
                  kind := SignalsLab.V2.Kind.comp }),
               (0,
                { subsHead := some 2,
                  subsTail := some 2,
                  depsHead := none,
                  depsTail := none,
                  depId := some 1,
                  activeRun := none,
                  prevRun := none,
                  flags := 0,
                  currentValue := some 7,
                  fn := none,
                  version := 0,
                  kind := SignalsLab.V2.Kind.src }),
               (2,
                { subsHead := none,
                  subsTail := none,
                  depsHead := none,
                  depsTail := none,
                  depId := none,
                  activeRun := none,
                  prevRun := none,
                  flags := 2,
                  currentValue := none,
                  fn := some (SignalsLab.V2.Expr.read 1),
                  version := 2,
                  kind := SignalsLab.V2.Kind.eff })],
    linksL := [(2, { sub := 1, dep := 0, prevSub := none, nextSub := none, nextDep := none }),
               (1, { sub := 1, dep := 0, prevSub := none, nextSub := none, nextDep := none }),
               (0, { sub := 2, dep := 1, prevSub := none, nextSub := none, nextDep := none })],
    mapsL := [],
    nextNode := 3,
    nextLink := 3,
    nextMap := 0,
    nextId := 2,
    version := 3,
    activeSub := none,
    activeRoot := none,
    batchQueue := [],
    batchIndex := 0,
    batchDepth := 0,
    evs := [SignalsLab.Ev.computeCall 1, SignalsLab.Ev.effectRun 2 (some (some 2)), SignalsLab.Ev.computeCall 1],
    oom := false,
    exn := false }

/-- Evaluated state literal of stage `t3Setup`. -/
def t3SetupLit : St :=
  { nodesL := [(3,
                { subsHead := none,
                  subsTail := none,
                  depsHead := some 3,
                  depsTail := some 3,
                  depId := none,
                  activeRun := none,
                  prevRun := none,
                  flags := 1,
                  currentValue := some 1,
                  fn := some (SignalsLab.V2.Expr.app1 (SignalsLab.V2.Op1.inc 0) (SignalsLab.V2.Expr.read 1)),
                  version := 3,
                  kind := SignalsLab.V2.Kind.comp }),
               (1,
                { subsHead := some 1,
                  subsTail := some 3,
                  depsHead := some 2,
                  depsTail := some 2,
                  depId := some 1,
                  activeRun := none,
                  prevRun := none,
                  flags := 1,
                  currentValue := some 1,
                  fn := some (SignalsLab.V2.Expr.app1 (SignalsLab.V2.Op1.inc 0) (SignalsLab.V2.Expr.read 0)),
                  version := 1,
                  kind := SignalsLab.V2.Kind.comp }),
               (2,
                { subsHead := none,
                  subsTail := none,
                  depsHead := some 0,
                  depsTail := some 1,
                  depId := none,
                  activeRun := some 0,
                  prevRun := none,
                  flags := 1,
                  currentValue := some 2,
                  fn := some (SignalsLab.V2.Expr.app2
                          (SignalsLab.V2.Op2.add)
                          (SignalsLab.V2.Expr.read 0)
                          (SignalsLab.V2.Expr.read 1)),
                  version := 2,
                  kind := SignalsLab.V2.Kind.comp }),
               (0,
                { subsHead := some 0,
                  subsTail := some 2,
                  depsHead := none,
                  depsTail := none,
                  depId := some 0,
                  activeRun := none,
                  prevRun := none,
                  flags := 0,
                  currentValue := some 1,
                  fn := none,
                  version := 0,
                  kind := SignalsLab.V2.Kind.src })],
    linksL := [(1, { sub := 2, dep := 1, prevSub := none, nextSub := some 3, nextDep := none }),
               (3, { sub := 3, dep := 1, prevSub := some 1, nextSub := none, nextDep := none }),
               (0, { sub := 2, dep := 0, prevSub := none, nextSub := some 2, nextDep := some 1 }),
               (2, { sub := 1, dep := 0, prevSub := some 0, nextSub := none, nextDep := none })],
    mapsL := [(0, [(1, 1), (0, 0)])],
    nextNode := 4,
    nextLink := 4,
    nextMap := 1,
    nextId := 2,
    version := 3,
    activeSub := none,
    activeRoot := none,
    batchQueue := [],
    batchIndex := 0,
    batchDepth := 0,
    evs := [SignalsLab.Ev.computeCall 2, SignalsLab.Ev.computeCall 1, SignalsLab.Ev.computeCall 3],
    oom := false,
    exn := false }

/-- Evaluated state literal of stage `t3W`. -/
def t3WLit : St :=
  { nodesL := [(3,
                { subsHead := none,
                  subsTail := none,
                  depsHead := some 3,
                  depsTail := some 3,
                  depId := none,
                  activeRun := none,
                  prevRun := none,
                  flags := 9,
                  currentValue := some 1,
                  fn := some (SignalsLab.V2.Expr.app1 (SignalsLab.V2.Op1.inc 0) (SignalsLab.V2.Expr.read 1)),
                  version := 3,
                  kind := SignalsLab.V2.Kind.comp }),
               (2,
                { subsHead := none,
                  subsTail := none,
                  depsHead := some 0,
                  depsTail := some 1,
                  depId := none,
                  activeRun := some 0,
                  prevRun := none,
                  flags := 13,
                  currentValue := some 2,
                  fn := some (SignalsLab.V2.Expr.app2
                          (SignalsLab.V2.Op2.add)
                          (SignalsLab.V2.Expr.read 0)
                          (SignalsLab.V2.Expr.read 1)),
                  version := 2,
                  kind := SignalsLab.V2.Kind.comp }),
               (1,
                { subsHead := some 1,
                  subsTail := some 3,
                  depsHead := some 2,
                  depsTail := some 2,
                  depId := some 1,
                  activeRun := none,
                  prevRun := none,
                  flags := 5,
                  currentValue := some 1,
                  fn := some (SignalsLab.V2.Expr.app1 (SignalsLab.V2.Op1.inc 0) (SignalsLab.V2.Expr.read 0)),
                  version := 1,
                  kind := SignalsLab.V2.Kind.comp }),
               (0,
                { subsHead := some 0,
                  subsTail := some 2,
                  depsHead := none,
                  depsTail := none,
                  depId := some 0,
                  activeRun := none,
                  prevRun := none,
                  flags := 0,
                  currentValue := some 5,
                  fn := none,
                  version := 4,
                  kind := SignalsLab.V2.Kind.src })],
    linksL := [(1, { sub := 2, dep := 1, prevSub := none, nextSub := some 3, nextDep := none }),
               (3, { sub := 3, dep := 1, prevSub := some 1, nextSub := none, nextDep := none }),
               (0, { sub := 2, dep := 0, prevSub := none, nextSub := some 2, nextDep := some 1 }),
               (2, { sub := 1, dep := 0, prevSub := some 0, nextSub := none, nextDep := none })],
    mapsL := [(0, [(1, 1), (0, 0)])],
    nextNode := 4,
    nextLink := 4,
    nextMap := 1,
    nextId := 2,
    version := 4,
    activeSub := none,
    activeRoot := none,
    batchQueue := [],
    batchIndex := 0,
    batchDepth := 0,
    evs := [SignalsLab.Ev.computeCall 2, SignalsLab.Ev.computeCall 1, SignalsLab.Ev.computeCall 3],
    oom := false,
    exn := false }

/-- Evaluated state literal of stage `n9Setup`. -/
def n9SetupLit : St :=
  { nodesL := [(3,
                { subsHead := none,
                  subsTail := none,
                  depsHead := some 0,
                  depsTail := some 4,
                  depId := none,
                  activeRun := some 0,
                  prevRun := none,
                  flags := 1,
                  currentValue := some 4,
                  fn := some (SignalsLab.V2.Expr.app2
                          (SignalsLab.V2.Op2.add)
                          (SignalsLab.V2.Expr.read 0)
                          (SignalsLab.V2.Expr.app2
                            (SignalsLab.V2.Op2.add)
                            (SignalsLab.V2.Expr.read 2)
                            (SignalsLab.V2.Expr.read 1))),
                  version := 3,
                  kind := SignalsLab.V2.Kind.comp }),
               (1,
                { subsHead := some 2,
                  subsTail := some 4,
                  depsHead := some 3,
                  depsTail := some 3,
                  depId := some 2,
                  activeRun := none,
                  prevRun := none,
                  flags := 1,
                  currentValue := some 1,
                  fn := some (SignalsLab.V2.Expr.app1 (SignalsLab.V2.Op1.inc 0) (SignalsLab.V2.Expr.read 0)),
                  version := 1,
                  kind := SignalsLab.V2.Kind.comp }),
               (2,
                { subsHead := some 1,
                  subsTail := some 1,
                  depsHead := some 2,
                  depsTail := some 2,
                  depId := some 1,
                  activeRun := none,
                  prevRun := none,
                  flags := 1,
                  currentValue := some 2,
                  fn := some (SignalsLab.V2.Expr.app1 (SignalsLab.V2.Op1.inc 1) (SignalsLab.V2.Expr.read 1)),
                  version := 2,
                  kind := SignalsLab.V2.Kind.comp }),
               (0,
                { subsHead := some 0,
                  subsTail := some 3,
                  depsHead := none,
                  depsTail := none,
                  depId := some 0,
                  activeRun := none,
                  prevRun := none,
                  flags := 0,
                  currentValue := some 1,
                  fn := none,
                  version := 0,
                  kind := SignalsLab.V2.Kind.src })],
    linksL := [(1, { sub := 3, dep := 2, prevSub := none, nextSub := none, nextDep := some 4 }),
               (2, { sub := 2, dep := 1, prevSub := none, nextSub := some 4, nextDep := none }),
               (4, { sub := 3, dep := 1, prevSub := some 2, nextSub := none, nextDep := none }),
               (0, { sub := 3, dep := 0, prevSub := none, nextSub := some 3, nextDep := some 1 }),
               (3, { sub := 1, dep := 0, prevSub := some 0, nextSub := none, nextDep := none })],
    mapsL := [(0, [(2, 4), (1, 1), (0, 0)])],
    nextNode := 4,
    nextLink := 5,
    nextMap := 1,
    nextId := 3,
    version := 3,
    activeSub := none,
    activeRoot := none,
    batchQueue := [],
    batchIndex := 0,
    batchDepth := 0,
    evs := [SignalsLab.Ev.computeCall 3, SignalsLab.Ev.computeCall 2, SignalsLab.Ev.computeCall 1],
    oom := false,
    exn := false }

/-- Evaluated state literal of stage `n9W`. -/
def n9WLit : St :=
  { nodesL := [(3,
                { subsHead := none,
                  subsTail := none,
                  depsHead := some 0,
                  depsTail := some 4,
                  depId := none,
                  activeRun := some 0,
                  prevRun := none,
                  flags := 13,
                  currentValue := some 4,
                  fn := some (SignalsLab.V2.Expr.app2
                          (SignalsLab.V2.Op2.add)
                          (SignalsLab.V2.Expr.read 0)
                          (SignalsLab.V2.Expr.app2
                            (SignalsLab.V2.Op2.add)
                            (SignalsLab.V2.Expr.read 2)
                            (SignalsLab.V2.Expr.read 1))),
                  version := 3,
                  kind := SignalsLab.V2.Kind.comp }),
               (2,
                { subsHead := some 1,
                  subsTail := some 1,
                  depsHead := some 2,
                  depsTail := some 2,
                  depId := some 1,
                  activeRun := none,
                  prevRun := none,
                  flags := 9,
                  currentValue := some 2,
                  fn := some (SignalsLab.V2.Expr.app1 (SignalsLab.V2.Op1.inc 1) (SignalsLab.V2.Expr.read 1)),
                  version := 2,
                  kind := SignalsLab.V2.Kind.comp }),
               (1,
                { subsHead := some 2,
                  subsTail := some 4,
                  depsHead := some 3,
                  depsTail := some 3,
                  depId := some 2,
                  activeRun := none,
                  prevRun := none,
                  flags := 5,
                  currentValue := some 1,
                  fn := some (SignalsLab.V2.Expr.app1 (SignalsLab.V2.Op1.inc 0) (SignalsLab.V2.Expr.read 0)),
                  version := 1,
                  kind := SignalsLab.V2.Kind.comp }),
               (0,
                { subsHead := some 0,
                  subsTail := some 3,
                  depsHead := none,
                  depsTail := none,
                  depId := some 0,
                  activeRun := none,
                  prevRun := none,
                  flags := 0,
                  currentValue := some 2,
                  fn := none,
                  version := 4,
                  kind := SignalsLab.V2.Kind.src })],
    linksL := [(1, { sub := 3, dep := 2, prevSub := none, nextSub := none, nextDep := some 4 }),
               (2, { sub := 2, dep := 1, prevSub := none, nextSub := some 4, nextDep := none }),
               (4, { sub := 3, dep := 1, prevSub := some 2, nextSub := none, nextDep := none }),
               (0, { sub := 3, dep := 0, prevSub := none, nextSub := some 3, nextDep := some 1 }),
               (3, { sub := 1, dep := 0, prevSub := some 0, nextSub := none, nextDep := none })],
    mapsL := [(0, [(2, 4), (1, 1), (0, 0)])],
    nextNode := 4,
    nextLink := 5,
    nextMap := 1,
    nextId := 3,
    version := 4,
    activeSub := none,
    activeRoot := none,
    batchQueue := [],
    batchIndex := 0,
    batchDepth := 0,
    evs := [SignalsLab.Ev.computeCall 3, SignalsLab.Ev.computeCall 2, SignalsLab.Ev.computeCall 1],
    oom := false,
    exn := false }

/-- Evaluated state literal of stage `n9R1St`. -/
def n9R1StLit : St :=
  { nodesL := [(3,
                { subsHead := none,
                  subsTail := none,
                  depsHead := some 0,
                  depsTail := some 4,
                  depId := none,
                  activeRun := some 0,
                  prevRun := none,
                  flags := 5,
                  currentValue := some 7,
                  fn := some (SignalsLab.V2.Expr.app2
                          (SignalsLab.V2.Op2.add)
                          (SignalsLab.V2.Expr.read 0)
                          (SignalsLab.V2.Expr.app2
                            (SignalsLab.V2.Op2.add)
                            (SignalsLab.V2.Expr.read 2)
                            (SignalsLab.V2.Expr.read 1))),
                  version := 7,
                  kind := SignalsLab.V2.Kind.comp }),
               (2,
                { subsHead := some 1,
                  subsTail := some 1,
                  depsHead := some 2,
                  depsTail := some 2,
                  depId := some 1,
                  activeRun := none,
                  prevRun := none,
                  flags := 1,
                  currentValue := some 3,
                  fn := some (SignalsLab.V2.Expr.app1 (SignalsLab.V2.Op1.inc 1) (SignalsLab.V2.Expr.read 1)),
                  version := 6,
                  kind := SignalsLab.V2.Kind.comp }),
               (1,
                { subsHead := some 2,
                  subsTail := some 4,
                  depsHead := some 3,
                  depsTail := some 3,
                  depId := some 2,
                  activeRun := none,
                  prevRun := none,
                  flags := 1,
                  currentValue := some 2,
                  fn := some (SignalsLab.V2.Expr.app1 (SignalsLab.V2.Op1.inc 0) (SignalsLab.V2.Expr.read 0)),
                  version := 5,
                  kind := SignalsLab.V2.Kind.comp }),
               (0,
                { subsHead := some 0,
                  subsTail := some 3,
                  depsHead := none,
                  depsTail := none,
                  depId := some 0,
                  activeRun := none,
                  prevRun := none,
                  flags := 0,
                  currentValue := some 2,
                  fn := none,
                  version := 4,
                  kind := SignalsLab.V2.Kind.src })],
    linksL := [(1, { sub := 3, dep := 2, prevSub := none, nextSub := none, nextDep := some 4 }),
               (2, { sub := 2, dep := 1, prevSub := none, nextSub := some 4, nextDep := none }),
               (4, { sub := 3, dep := 1, prevSub := some 2, nextSub := none, nextDep := none }),
               (0, { sub := 3, dep := 0, prevSub := none, nextSub := some 3, nextDep := some 1 }),
               (3, { sub := 1, dep := 0, prevSub := some 0, nextSub := none, nextDep := none })],
    mapsL := [(0, [(2, 4), (1, 1), (0, 0)])],
    nextNode := 4,
    nextLink := 5,
    nextMap := 1,
    nextId := 3,
    version := 7,
    activeSub := none,
    activeRoot := none,
    batchQueue := [],
    batchIndex := 0,
    batchDepth := 0,
    evs := [SignalsLab.Ev.computeCall 3,
            SignalsLab.Ev.computeCall 2,
            SignalsLab.Ev.computeCall 1,
            SignalsLab.Ev.computeCall 3,
            SignalsLab.Ev.computeCall 1,
            SignalsLab.Ev.computeCall 2],
    oom := false,
    exn := false }

/-- Evaluated state literal of stage `n9R2St`. -/
def n9R2StLit : St :=
  { nodesL := [(3,
                { subsHead := none,
                  subsTail := none,
                  depsHead := some 0,
                  depsTail := some 4,
                  depId := none,
                  activeRun := some 0,
                  prevRun := none,
                  flags := 1,
                  currentValue := some 7,
                  fn := some (SignalsLab.V2.Expr.app2
                          (SignalsLab.V2.Op2.add)
                          (SignalsLab.V2.Expr.read 0)
                          (SignalsLab.V2.Expr.app2
                            (SignalsLab.V2.Op2.add)
                            (SignalsLab.V2.Expr.read 2)
                            (SignalsLab.V2.Expr.read 1))),
                  version := 7,
                  kind := SignalsLab.V2.Kind.comp }),
               (2,
                { subsHead := some 1,
                  subsTail := some 1,
                  depsHead := some 2,
                  depsTail := some 2,
                  depId := some 1,
                  activeRun := none,
                  prevRun := none,
                  flags := 1,
                  currentValue := some 3,
                  fn := some (SignalsLab.V2.Expr.app1 (SignalsLab.V2.Op1.inc 1) (SignalsLab.V2.Expr.read 1)),
                  version := 6,
                  kind := SignalsLab.V2.Kind.comp }),
               (1,
                { subsHead := some 2,
                  subsTail := some 4,
                  depsHead := some 3,
                  depsTail := some 3,
                  depId := some 2,
                  activeRun := none,
                  prevRun := none,
                  flags := 1,
                  currentValue := some 2,
                  fn := some (SignalsLab.V2.Expr.app1 (SignalsLab.V2.Op1.inc 0) (SignalsLab.V2.Expr.read 0)),
                  version := 5,
                  kind := SignalsLab.V2.Kind.comp }),
               (0,
                { subsHead := some 0,
                  subsTail := some 3,
                  depsHead := none,
                  depsTail := none,
                  depId := some 0,
                  activeRun := none,
                  prevRun := none,
                  flags := 0,
                  currentValue := some 2,
                  fn := none,
                  version := 4,
                  kind := SignalsLab.V2.Kind.src })],
    linksL := [(1, { sub := 3, dep := 2, prevSub := none, nextSub := none, nextDep := some 4 }),
               (2, { sub := 2, dep := 1, prevSub := none, nextSub := some 4, nextDep := none }),
               (4, { sub := 3, dep := 1, prevSub := some 2, nextSub := none, nextDep := none }),
               (0, { sub := 3, dep := 0, prevSub := none, nextSub := some 3, nextDep := some 1 }),
               (3, { sub := 1, dep := 0, prevSub := some 0, nextSub := none, nextDep := none })],
    mapsL := [(0, [(2, 4), (1, 1), (0, 0)])],
    nextNode := 4,
    nextLink := 5,
    nextMap := 1,
    nextId := 3,
    version := 7,
    activeSub := none,
    activeRoot := none,
    batchQueue := [],
    batchIndex := 0,
    batchDepth := 0,
    evs := [SignalsLab.Ev.computeCall 3,
            SignalsLab.Ev.computeCall 2,
            SignalsLab.Ev.computeCall 1,
            SignalsLab.Ev.computeCall 3,
            SignalsLab.Ev.computeCall 1,
            SignalsLab.Ev.computeCall 2,
            SignalsLab.Ev.computeCall 3],
    oom := false,
    exn := false }

/-- Evaluated state literal of stage `c5Setup`. -/
def c5SetupLit : St :=
  { nodesL := [(4,
                { subsHead := none,
                  subsTail := none,
                  depsHead := some 2,
                  depsTail := some 2,
                  depId := none,
                  activeRun := none,
                  prevRun := none,
                  flags := 2,
                  currentValue := none,
                  fn := some (SignalsLab.V2.Expr.read 3),
                  version := 3,
                  kind := SignalsLab.V2.Kind.eff }),
               (3,
                { subsHead := some 2,
                  subsTail := some 2,
                  depsHead := none,
                  depsTail := none,
                  depId := some 2,
                  activeRun := none,
                  prevRun := none,
                  flags := 0,
                  currentValue := some 3,
                  fn := none,
                  version := 0,
                  kind := SignalsLab.V2.Kind.src }),
               (2,
                { subsHead := none,
                  subsTail := none,
                  depsHead := some 0,
                  depsTail := some 0,
                  depId := none,
                  activeRun := none,
                  prevRun := none,
                  flags := 2,
                  currentValue := none,
                  fn := some (SignalsLab.V2.Expr.read 1),
                  version := 2,
                  kind := SignalsLab.V2.Kind.eff }),
               (1,
                { subsHead := some 0,
                  subsTail := some 0,
                  depsHead := some 1,
                  depsTail := some 1,
                  depId := some 0,
                  activeRun := none,
                  prevRun := none,
                  flags := 1,
                  currentValue := some 1,
                  fn := some (SignalsLab.V2.Expr.cond
                          (SignalsLab.V2.Expr.app1 (SignalsLab.V2.Op1.small2) (SignalsLab.V2.Expr.read 0))
                          (SignalsLab.V2.Expr.read 0)
                          (SignalsLab.V2.Expr.fail)),
                  version := 1,
                  kind := SignalsLab.V2.Kind.comp }),
               (0,
                { subsHead := some 1,
                  subsTail := some 1,
                  depsHead := none,
                  depsTail := none,
                  depId := some 1,
                  activeRun := none,
                  prevRun := none,
                  flags := 0,
                  currentValue := some 1,
                  fn := none,
                  version := 0,
                  kind := SignalsLab.V2.Kind.src })],
    linksL := [(2, { sub := 4, dep := 3, prevSub := none, nextSub := none, nextDep := none }),
               (1, { sub := 1, dep := 0, prevSub := none, nextSub := none, nextDep := none }),
               (0, { sub := 2, dep := 1, prevSub := none, nextSub := none, nextDep := none })],
    mapsL := [],
    nextNode := 5,
    nextLink := 3,
    nextMap := 0,
    nextId := 3,
    version := 3,
    activeSub := none,
    activeRoot := none,
    batchQueue := [],
    batchIndex := 0,
    batchDepth := 0,
    evs := [SignalsLab.Ev.computeCall 1,
            SignalsLab.Ev.effectRun 2 (some (some 1)),
            SignalsLab.Ev.effectRun 4 (some (some 3))],
    oom := false,
    exn := false }

/-- Evaluated state literal of stage `c5W`. -/
def c5WLit : St :=
  { nodesL := [(2,
                { subsHead := none,
                  subsTail := none,
                  depsHead := some 0,
                  depsTail := some 0,
                  depId := none,
                  activeRun := none,
                  prevRun := none,
                  flags := 2,
                  currentValue := none,
                  fn := some (SignalsLab.V2.Expr.read 1),
                  version := 2,
                  kind := SignalsLab.V2.Kind.eff }),
               (1,
                { subsHead := some 0,
                  subsTail := some 0,
                  depsHead := some 1,
                  depsTail := some 1,
                  depId := some 0,
                  activeRun := none,
                  prevRun := none,
                  flags := 1,
                  currentValue := some 1,
                  fn := some (SignalsLab.V2.Expr.cond
                          (SignalsLab.V2.Expr.app1 (SignalsLab.V2.Op1.small2) (SignalsLab.V2.Expr.read 0))
                          (SignalsLab.V2.Expr.read 0)
                          (SignalsLab.V2.Expr.fail)),
                  version := 1,
                  kind := SignalsLab.V2.Kind.comp }),
               (0,
                { subsHead := some 1,
                  subsTail := some 1,
                  depsHead := none,
                  depsTail := none,
                  depId := some 1,
                  activeRun := none,
                  prevRun := none,
                  flags := 0,
                  currentValue := some 5,
                  fn := none,
                  version := 4,
                  kind := SignalsLab.V2.Kind.src }),
               (4,
                { subsHead := none,
                  subsTail := none,
                  depsHead := some 2,
                  depsTail := some 2,
                  depId := none,
                  activeRun := none,
                  prevRun := none,
                  flags := 2,
                  currentValue := none,
                  fn := some (SignalsLab.V2.Expr.read 3),
                  version := 3,
                  kind := SignalsLab.V2.Kind.eff }),
               (3,
                { subsHead := some 2,
                  subsTail := some 2,
                  depsHead := none,
                  depsTail := none,
                  depId := some 2,
                  activeRun := none,
                  prevRun := none,
                  flags := 0,
                  currentValue := some 3,
                  fn := none,
                  version := 0,
                  kind := SignalsLab.V2.Kind.src })],
    linksL := [(2, { sub := 4, dep := 3, prevSub := none, nextSub := none, nextDep := none }),
               (1, { sub := 1, dep := 0, prevSub := none, nextSub := none, nextDep := none }),
               (0, { sub := 2, dep := 1, prevSub := none, nextSub := none, nextDep := none })],
    mapsL := [],
    nextNode := 5,
    nextLink := 3,
    nextMap := 0,
    nextId := 3,
    version := 4,
    activeSub := none,
    activeRoot := none,
    batchQueue := [],
    batchIndex := 0,
    batchDepth := 0,
    evs := [SignalsLab.Ev.computeCall 1,
            SignalsLab.Ev.effectRun 2 (some (some 1)),
            SignalsLab.Ev.effectRun 4 (some (some 3)),
            SignalsLab.Ev.computeCall 1],
    oom := false,
    exn := false }

/-- Evaluated state literal of stage `c5W2`. -/
def c5W2Lit : St :=
  { nodesL := [(4,
                { subsHead := none,
                  subsTail := none,
                  depsHead := some 2,
                  depsTail := some 2,
                  depId := none,
                  activeRun := none,
                  prevRun := none,
                  flags := 2,
                  currentValue := none,
                  fn := some (SignalsLab.V2.Expr.read 3),
                  version := 6,
                  kind := SignalsLab.V2.Kind.eff }),
               (3,
                { subsHead := some 2,
                  subsTail := some 2,
                  depsHead := none,
                  depsTail := none,
                  depId := some 2,
                  activeRun := none,
                  prevRun := none,
                  flags := 0,
                  currentValue := some 7,
                  fn := none,
                  version := 5,
                  kind := SignalsLab.V2.Kind.src }),
               (2,
                { subsHead := none,
                  subsTail := none,
                  depsHead := some 0,
                  depsTail := some 0,
                  depId := none,
                  activeRun := none,
                  prevRun := none,
                  flags := 2,
                  currentValue := none,
                  fn := some (SignalsLab.V2.Expr.read 1),
                  version := 2,
                  kind := SignalsLab.V2.Kind.eff }),
               (1,
                { subsHead := some 0,
                  subsTail := some 0,
                  depsHead := some 1,
                  depsTail := some 1,
                  depId := some 0,
                  activeRun := none,
                  prevRun := none,
                  flags := 1,
                  currentValue := some 1,
                  fn := some (SignalsLab.V2.Expr.cond
                          (SignalsLab.V2.Expr.app1 (SignalsLab.V2.Op1.small2) (SignalsLab.V2.Expr.read 0))
                          (SignalsLab.V2.Expr.read 0)
                          (SignalsLab.V2.Expr.fail)),
                  version := 1,
                  kind := SignalsLab.V2.Kind.comp }),
               (0,
                { subsHead := some 1,
                  subsTail := some 1,
                  depsHead := none,
                  depsTail := none,
                  depId := some 1,
                  activeRun := none,
                  prevRun := none,
                  flags := 0,
                  currentValue := some 5,
                  fn := none,
                  version := 4,
                  kind := SignalsLab.V2.Kind.src })],
    linksL := [(2, { sub := 4, dep := 3, prevSub := none, nextSub := none, nextDep := none }),
               (1, { sub := 1, dep := 0, prevSub := none, nextSub := none, nextDep := none }),
               (0, { sub := 2, dep := 1, prevSub := none, nextSub := none, nextDep := none })],
    mapsL := [],
    nextNode := 5,
    nextLink := 3,
    nextMap := 0,
    nextId := 3,
    version := 6,
    activeSub := none,
    activeRoot := none,
    batchQueue := [],
    batchIndex := 0,
    batchDepth := 0,
    evs := [SignalsLab.Ev.computeCall 1,
            SignalsLab.Ev.effectRun 2 (some (some 1)),
            SignalsLab.Ev.effectRun 4 (some (some 3)),
            SignalsLab.Ev.computeCall 1,
            SignalsLab.Ev.effectRun 4 (some (some 7))],
    oom := false,
    exn := false }

end V2

/-- v2 witness state for C10: a freshly created lone source. -/
def w10 : V2.St := (V2.mkSource (some 1) V2.St.init).2

/-- v4 witness state for C10: a freshly created lone source. -/
def w10v : V4.StV := (V4.mkSourceV (some 1) V4.StV.init).2

/-- Dropping the bindings of one key does not change lookups of other
keys. -/
theorem lookupD_dropKey {κ α : Type} [DecidableEq κ] (l : List (κ × α)) (i j : κ)
    (d : α) (hj : j ≠ i) : lookupD (dropKey l i) j d = lookupD l j d := by
  induction l with
  | nil => rfl
  | cons hd tl ih =>
    obtain ⟨k, v⟩ := hd
    by_cases hk : k = i
    · have : ¬(j = k) := fun h => hj (h.trans hk)
      simp [dropKey, lookupD, hk, this, ih, hj]
    · by_cases hjk : j = k
      · simp [dropKey, lookupD, hk, hjk]
      · simp [dropKey, lookupD, hk, hjk, ih]

namespace V2

/-! Store lemmas: how the association-list stores behave under the
write operations.  These drive the symbolic proofs about arbitrary
states. -/

/-- Node store lookup after a node write. -/
theorem nodes_updNode (st : St) (i : Nat) (f : NodeN → NodeN) (j : Nat) :
    (updNode st i f).nodes j = if j = i then f (st.nodes i) else st.nodes j := by
  by_cases h : j = i
  · simp [updNode, St.nodes, lookupD, h]
  · simp [updNode, St.nodes, lookupD, h, lookupD_dropKey _ i j _ h]

/-- Link store lookup after a link write. -/
theorem links_updLink (st : St) (i : Nat) (f : LinkN → LinkN) (j : Nat) :
    (updLink st i f).links j = if j = i then f (st.links i) else st.links j := by
  by_cases h : j = i
  · simp [updLink, St.links, lookupD, h]
  · simp [updLink, St.links, lookupD, h, lookupD_dropKey _ i j _ h]

/-- Node writes do not touch links. -/
theorem links_updNode (st : St) (i : Nat) (f : NodeN → NodeN) :
    (updNode st i f).links = st.links := rfl

/-- Link writes do not touch nodes. -/
theorem nodes_updLink (st : St) (i : Nat) (f : LinkN → LinkN) :
    (updLink st i f).nodes = st.nodes := rfl

/-- Node writes do not touch the trace. -/
theorem evs_updNode (st : St) (i : Nat) (f : NodeN → NodeN) :
    (updNode st i f).evs = st.evs := rfl

/-- Link writes do not touch the trace. -/
theorem evs_updLink (st : St) (i : Nat) (f : LinkN → LinkN) :
    (updLink st i f).evs = st.evs := rfl

/-- Node writes do not touch the exception marker. -/
theorem exn_updNode (st : St) (i : Nat) (f : NodeN → NodeN) :
    (updNode st i f).exn = st.exn := rfl

/-- Link writes do not touch the exception marker. -/
theorem exn_updLink (st : St) (i : Nat) (f : LinkN → LinkN) :
    (updLink st i f).exn = st.exn := rfl

/-- Node writes do not touch the active consumer. -/
theorem activeSub_updNode (st : St) (i : Nat) (f : NodeN → NodeN) :
    (updNode st i f).activeSub = st.activeSub := rfl

/-- Queueing an effect does not touch links. -/
theorem links_notify (sub : Nat) (st : St) : (notify sub st).links = st.links := rfl

/-- The value stores of every node survive `startTracking` (it only
changes pointers and flags). -/
theorem currentValue_startTracking (sub : Nat) (st : St) (m : Nat) :
    ((startTracking sub st).nodes m).currentValue = (st.nodes m).currentValue := by
  rw [startTracking, nodes_updNode]
  by_cases h : m = sub <;> simp [h]

/-- The value stores of every node survive one unlink-drain step. -/
theorem currentValue_drainBody (l : Nat) (st : St) (m : Nat) :
    (((drainBody l st).2).nodes m).currentValue = (st.nodes m).currentValue := by
  rcases hns : (st.links l).nextSub with _ | ns <;>
    rcases hps : (st.links l).prevSub with _ | ps <;>
    simp only [drainBody, hns, hps] <;>
    repeat' split
  all_goals
    ((try dsimp only)
     simp [nodes_updNode, nodes_updLink, apply_ite NodeN.currentValue, ite_self]
     (try ((repeat' split) <;> simp_all)))

/-- The value stores of every node survive the unlink drain. -/
theorem currentValue_drainLoop (fuel : Nat) (l : Option Nat) (st : St) (m : Nat) :
    ((drainLoop fuel l st).nodes m).currentValue = (st.nodes m).currentValue := by
  induction fuel generalizing l st with
  | zero => cases l <;> rfl
  | succ fuel ih =>
    cases l with
    | none => rfl
    | some x => rw [drainLoop, ih, currentValue_drainBody]

/-- The event trace survives one unlink-drain step (it only splices
pointers and sets flags). -/
theorem evs_drainBody (l : Nat) (st : St) : ((drainBody l st).2).evs = st.evs := by
  rcases hns : (st.links l).nextSub with _ | ns <;>
    rcases hps : (st.links l).prevSub with _ | ps <;>
    simp only [drainBody, hns, hps] <;>
    repeat' split
  all_goals ((try dsimp only); rfl)

/-- The event trace survives the unlink drain. -/
theorem evs_drainLoop (fuel : Nat) (l : Option Nat) (st : St) :
    (drainLoop fuel l st).evs = st.evs := by
  induction fuel generalizing l st with
  | zero => cases l <;> rfl
  | succ fuel ih =>
    cases l with
    | none => rfl
    | some x => rw [drainLoop, ih, evs_drainBody]

/-- The event trace survives `endTracking`. -/
theorem evs_endTracking (fuel : Nat) (sub : Nat) (st : St) :
    (endTracking fuel sub st).evs = st.evs := by
  unfold endTracking
  cases hdt : (st.nodes sub).depsTail with
  | none =>
    dsimp only
    simp [evs_drainLoop, evs_updNode, evs_updLink]
  | some dt =>
    dsimp only
    cases hnd : (st.links dt).nextDep with
    | none => simp [hnd, evs_drainLoop, evs_updNode, evs_updLink]
    | some nd => simp [hnd, evs_drainLoop, evs_updNode, evs_updLink]

/-- The uncaught-exception marker survives one unlink-drain step. -/
theorem exn_drainBody (l : Nat) (st : St) : ((drainBody l st).2).exn = st.exn := by
  rcases hns : (st.links l).nextSub with _ | ns <;>
    rcases hps : (st.links l).prevSub with _ | ps <;>
    simp only [drainBody, hns, hps] <;>
    repeat' split
  all_goals ((try dsimp only); rfl)

/-- The uncaught-exception marker survives the unlink drain. -/
theorem exn_drainLoop (fuel : Nat) (l : Option Nat) (st : St) :
    (drainLoop fuel l st).exn = st.exn := by
  induction fuel generalizing l st with
  | zero => cases l <;> rfl
  | succ fuel ih =>
    cases l with
    | none => rfl
    | some x => rw [drainLoop, ih, exn_drainBody]

/-- The uncaught-exception marker survives `endTracking`. -/
theorem exn_endTracking (fuel : Nat) (sub : Nat) (st : St) :
    (endTracking fuel sub st).exn = st.exn := by
  unfold endTracking
  cases hdt : (st.nodes sub).depsTail with
  | none =>
    dsimp only
    simp [exn_drainLoop, exn_updNode, exn_updLink]
  | some dt =>
    dsimp only
    cases hnd : (st.links dt).nextDep with
    | none => simp [hnd, exn_drainLoop, exn_updNode, exn_updLink]
    | some nd => simp [hnd, exn_drainLoop, exn_updNode, exn_updLink]

/-- The value stores of every node survive `endTracking`. -/
theorem currentValue_endTracking (fuel : Nat) (sub : Nat) (st : St) (m : Nat) :
    ((endTracking fuel sub st).nodes m).currentValue = (st.nodes m).currentValue := by
  unfold endTracking
  cases hdt : (st.nodes sub).depsTail with
  | none =>
    dsimp only
    simp [nodes_updNode, nodes_updLink, apply_ite NodeN.currentValue, ite_self,
      currentValue_drainLoop]
    (try ((repeat' split) <;> simp_all))
  | some dt =>
    dsimp only
    cases hnd : (st.links dt).nextDep with
    | none =>
      simp [hnd, nodes_updNode, nodes_updLink, apply_ite NodeN.currentValue, ite_self,
        currentValue_drainLoop]
      (try ((repeat' split) <;> simp_all))
    | some nd =>
      simp [hnd, nodes_updNode, nodes_updLink, apply_ite NodeN.currentValue, ite_self,
        currentValue_drainLoop]
      (try ((repeat' split) <;> simp_all))


/-! Preservation kit for the batch-atomicity claim: the batch depth and
the number of effect invocations survive every engine operation that a
source write inside a batch can reach (effects are only queued, never
run, until the outermost batch exit flushes). -/

/-- Node writes do not touch the batch depth. -/
theorem batchDepth_updNode (st : St) (i : Nat) (f : NodeN → NodeN) :
    (updNode st i f).batchDepth = st.batchDepth := rfl

/-- Link writes do not touch the batch depth. -/
theorem batchDepth_updLink (st : St) (i : Nat) (f : LinkN → LinkN) :
    (updLink st i f).batchDepth = st.batchDepth := rfl

/-- Dep-map writes do not touch the batch depth. -/
theorem batchDepth_updMap (st : St) (i : Nat) (f : List (Nat × Nat) → List (Nat × Nat)) :
    (updMap st i f).batchDepth = st.batchDepth := rfl

/-- Dep-map writes do not touch the trace. -/
theorem evs_updMap (st : St) (i : Nat) (f : List (Nat × Nat) → List (Nat × Nat)) :
    (updMap st i f).evs = st.evs := rfl

/-- Link allocation does not touch the batch depth. -/
theorem batchDepth_allocLink (l : LinkN) (st : St) :
    ((allocLink l st).2).batchDepth = st.batchDepth := rfl

/-- Link allocation does not touch the trace. -/
theorem evs_allocLink (l : LinkN) (st : St) : ((allocLink l st).2).evs = st.evs := rfl

/-- Dep-map allocation does not touch the batch depth. -/
theorem batchDepth_allocMap (m : List (Nat × Nat)) (st : St) :
    ((allocMap m st).2).batchDepth = st.batchDepth := rfl

/-- Dep-map allocation does not touch the trace. -/
theorem evs_allocMap (m : List (Nat × Nat)) (st : St) : ((allocMap m st).2).evs = st.evs := rfl

/-- Recording an event does not touch the batch depth. -/
theorem batchDepth_record (e : Ev) (st : St) : (record e st).batchDepth = st.batchDepth := rfl

/-- Recording appends the event to the trace. -/
theorem evs_record (e : Ev) (st : St) : (record e st).evs = st.evs ++ [e] := rfl

/-- Queueing an effect does not touch the batch depth. -/
theorem batchDepth_notify (s : Nat) (st : St) : (notify s st).batchDepth = st.batchDepth := rfl

/-- Queueing an effect records nothing. -/
theorem evs_notify (s : Nat) (st : St) : (notify s st).evs = st.evs := rfl

/-- `startTracking` does not touch the batch depth. -/
theorem batchDepth_startTracking (s : Nat) (st : St) :
    (startTracking s st).batchDepth = st.batchDepth := rfl

/-- `startTracking` records nothing. -/
theorem evs_startTracking (s : Nat) (st : St) : (startTracking s st).evs = st.evs := rfl

/-- The effect count of a concatenated trace adds up. -/
theorem effectRuns_append (a b : List Ev) :
    effectRuns (a ++ b) = effectRuns a + effectRuns b := by
  simp [effectRuns, List.countP_append]

/-- A compute call adds no effect invocation. -/
theorem effectRuns_snocCompute (a : List Ev) (n : Nat) :
    effectRuns (a ++ [Ev.computeCall n]) = effectRuns a := by
  simp [effectRuns, List.countP_append, List.countP_cons]

/-- The batch depth survives one unlink-drain step. -/
theorem batchDepth_drainBody (l : Nat) (st : St) :
    ((drainBody l st).2).batchDepth = st.batchDepth := by
  rcases hns : (st.links l).nextSub with _ | ns <;>
    rcases hps : (st.links l).prevSub with _ | ps <;>
    simp only [drainBody, hns, hps] <;>
    repeat' split
  all_goals ((try dsimp only); rfl)

/-- The batch depth survives the unlink drain. -/
theorem batchDepth_drainLoop (fuel : Nat) (l : Option Nat) (st : St) :
    (drainLoop fuel l st).batchDepth = st.batchDepth := by
  induction fuel generalizing l st with
  | zero => cases l <;> rfl
  | succ fuel ih =>
    cases l with
    | none => rfl
    | some x => rw [drainLoop, ih, batchDepth_drainBody]

/-- The batch depth survives `endTracking`. -/
theorem batchDepth_endTracking (fuel : Nat) (sub : Nat) (st : St) :
    (endTracking fuel sub st).batchDepth = st.batchDepth := by
  unfold endTracking
  cases hdt : (st.nodes sub).depsTail with
  | none =>
    dsimp only
    simp [batchDepth_drainLoop, batchDepth_updNode, batchDepth_updLink]
  | some dt =>
    dsimp only
    cases hnd : (st.links dt).nextDep with
    | none => simp [hnd, batchDepth_drainLoop, batchDepth_updNode, batchDepth_updLink]
    | some nd => simp [hnd, batchDepth_drainLoop, batchDepth_updNode, batchDepth_updLink]

/-- The batch depth and the trace survive `linkTail`. -/
theorem quiet_linkTail (dep sub depId : Nat) (w : Bool) (pd nd ar : Option Nat) (st : St) :
    (linkTail dep sub depId w pd nd ar st).batchDepth = st.batchDepth ∧
    (linkTail dep sub depId w pd nd ar st).evs = st.evs := by
  simp only [linkTail]
  repeat' split
  all_goals ((try dsimp only); exact ⟨rfl, rfl⟩)

/-- The batch depth and the trace survive `link`. -/
theorem quiet_link (dep sub : Nat) (st : St) :
    (link dep sub st).batchDepth = st.batchDepth ∧ (link dep sub st).evs = st.evs := by
  simp only [link]
  repeat' split
  all_goals
    ((try dsimp only)
     first
       | exact ⟨rfl, rfl⟩
       | exact ⟨(quiet_linkTail _ _ _ _ _ _ _ _).1, (quiet_linkTail _ _ _ _ _ _ _ _).2⟩)

/-- The batch depth and the trace survive `shallowPropagate`. -/
theorem quiet_shallowProp (fuel : Nat) (l : Nat) (st : St) :
    (shallowProp fuel l st).batchDepth = st.batchDepth ∧
    (shallowProp fuel l st).evs = st.evs := by
  induction fuel generalizing l st with
  | zero => exact ⟨rfl, rfl⟩
  | succ fuel ih =>
    simp only [shallowProp]
    repeat' split
    all_goals
      ((try dsimp only)
       first
         | exact ⟨rfl, rfl⟩
         | exact ⟨(ih _ _).1.trans rfl, (ih _ _).2.trans rfl⟩)

/-- The batch depth and the trace survive the guarded shallow
propagation of `checkDirty`. -/
theorem quiet_cdShallow (fuel : Nat) (dep : Nat) (st : St) :
    (cdShallow fuel dep st).batchDepth = st.batchDepth ∧
    (cdShallow fuel dep st).evs = st.evs := by
  simp only [cdShallow]
  repeat' split
  all_goals first
    | exact ⟨rfl, rfl⟩
    | exact ⟨(quiet_shallowProp _ _ _).1, (quiet_shallowProp _ _ _).2⟩

/-- The batch depth and the trace survive the source getter. -/
theorem quiet_sourceGet (nid : Nat) (st : St) :
    ((sourceGet nid st).1).batchDepth = st.batchDepth ∧
    ((sourceGet nid st).1).evs = st.evs := by
  simp only [sourceGet]
  repeat' split
  all_goals first
    | exact ⟨rfl, rfl⟩
    | exact ⟨(quiet_link _ _ _).1, (quiet_link _ _ _).2⟩


set_option maxHeartbeats 2000000 in
/-- The batch depth and the effect-invocation count survive the whole
propagation/recomputation machinery that a source write can reach:
`propagate`'s loops, `checkDirty`, `updateComputed`, compute-body
evaluation and the computed getter.  Effects are queued (`notify`),
never run, on these paths; only `flush` runs effects, and nothing here
calls it. -/
theorem engineQuiet : ∀ fuel : Nat,
    (∀ q i st, (propLoop fuel q i st).batchDepth = st.batchDepth) ∧
    (∀ q i st, effectRuns (propLoop fuel q i st).evs = effectRuns st.evs) ∧
    (∀ l tf q st, ((propChain fuel l tf q st).2).batchDepth = st.batchDepth) ∧
    (∀ l tf q st, effectRuns ((propChain fuel l tf q st).2).evs = effectRuns st.evs) ∧
    (∀ l stk d st, ((cdLoop fuel l stk d st).1).batchDepth = st.batchDepth) ∧
    (∀ l stk d st, effectRuns ((cdLoop fuel l stk d st).1).evs = effectRuns st.evs) ∧
    (∀ l stk d st, ((cdAdvance fuel l stk d st).1).batchDepth = st.batchDepth) ∧
    (∀ l stk d st, effectRuns ((cdAdvance fuel l stk d st).1).evs = effectRuns st.evs) ∧
    (∀ stk d st, ((cdBubble fuel stk d st).1).batchDepth = st.batchDepth) ∧
    (∀ stk d st, effectRuns ((cdBubble fuel stk d st).1).evs = effectRuns st.evs) ∧
    (∀ nid st, ((updateComputed fuel nid st).1).batchDepth = st.batchDepth) ∧
    (∀ nid st, effectRuns ((updateComputed fuel nid st).1).evs = effectRuns st.evs) ∧
    (∀ e st, ((evalExpr fuel e st).1).batchDepth = st.batchDepth) ∧
    (∀ e st, effectRuns ((evalExpr fuel e st).1).evs = effectRuns st.evs) ∧
    (∀ nid st, ((computedGet fuel nid st).1).batchDepth = st.batchDepth) ∧
    (∀ nid st, effectRuns ((computedGet fuel nid st).1).evs = effectRuns st.evs) := by
  intro fuel
  induction fuel with
  | zero =>
    refine ⟨fun q i st => rfl, fun q i st => rfl, fun l tf q st => rfl,
      fun l tf q st => rfl, ?_, ?_, fun l stk d st => rfl, fun l stk d st => rfl,
      fun stk d st => rfl, fun stk d st => rfl, fun nid st => rfl, fun nid st => rfl,
      fun e st => rfl, fun e st => rfl, fun nid st => rfl, fun nid st => rfl⟩
    · intro l stk d st
      cases l <;> rfl
    · intro l stk d st
      cases l <;> rfl
  | succ fuel ih =>
    obtain ⟨plB, plE, pcB, pcE, clB, clE, caB, caE, cbB, cbE, ucB, ucE, eeB, eeE,
      cgB, cgE⟩ := ih
    have lkB : ∀ dep sub st, (link dep sub st : St).batchDepth = st.batchDepth :=
      fun d s st => (quiet_link d s st).1
    have lkE : ∀ dep sub st, (link dep sub st : St).evs = st.evs :=
      fun d s st => (quiet_link d s st).2
    have shB : ∀ f dep st, (cdShallow f dep st : St).batchDepth = st.batchDepth :=
      fun f d st => (quiet_cdShallow f d st).1
    have shE : ∀ f dep st, (cdShallow f dep st : St).evs = st.evs :=
      fun f d st => (quiet_cdShallow f d st).2
    have sgB : ∀ nid st, ((sourceGet nid st).1).batchDepth = st.batchDepth :=
      fun n st => (quiet_sourceGet n st).1
    have sgE : ∀ nid st, ((sourceGet nid st).1).evs = st.evs :=
      fun n st => (quiet_sourceGet n st).2
    refine ⟨?_, ?_, ?_, ?_, ?_, ?_, ?_, ?_, ?_, ?_, ?_, ?_, ?_, ?_, ?_, ?_⟩
    · intro q i st
      simp only [propLoop]
      split
      · simp [plB, pcB]
      · rfl
    · intro q i st
      simp only [propLoop]
      split
      · simp [plE, pcE]
      · rfl
    · intro l tf q st
      simp only [propChain]
      repeat' split
      all_goals
        ((try dsimp only)
         simp [pcB, ucB, batchDepth_updNode, batchDepth_notify])
    · intro l tf q st
      simp only [propChain]
      repeat' split
      all_goals
        ((try dsimp only)
         simp [pcE, ucE, evs_updNode, evs_notify])
    · intro l stk d st
      cases l with
      | none => rfl
      | some x =>
        simp only [cdLoop]
        repeat' split
        all_goals
          ((try dsimp only)
           simp [clB, caB, cbB, ucB, shB])
    · intro l stk d st
      cases l with
      | none => rfl
      | some x =>
        simp only [cdLoop]
        repeat' split
        all_goals
          ((try dsimp only)
           simp [clE, caE, cbE, ucE, shE])
    · intro l stk d st
      simp only [cdAdvance]
      repeat' split
      all_goals
        ((try dsimp only)
         simp [clB, batchDepth_updNode])
    · intro l stk d st
      simp only [cdAdvance]
      repeat' split
      all_goals
        ((try dsimp only)
         simp [clE, evs_updNode])
    · intro stk d st
      cases d with
      | zero => rfl
      | succ d =>
        simp only [cdBubble]
        try repeat' split
        all_goals (try dsimp only)
        all_goals (first | rfl | simp [clB, cbB, ucB, shB])
    · intro stk d st
      cases d with
      | zero => rfl
      | succ d =>
        simp only [cdBubble]
        try repeat' split
        all_goals (try dsimp only)
        all_goals (first | rfl | simp [clE, cbE, ucE, shE])
    · intro nid st
      simp only [updateComputed]
      repeat' split
      all_goals
        ((try dsimp only)
         simp [eeB, batchDepth_endTracking, batchDepth_record, batchDepth_updNode,
           batchDepth_startTracking])
    · intro nid st
      simp only [updateComputed]
      repeat' split
      all_goals
        ((try dsimp only)
         simp [eeE, evs_endTracking, evs_record, evs_updNode, evs_startTracking,
           effectRuns_snocCompute])
    · intro e st
      cases e <;>
        (simp only [evalExpr]
         try repeat' split
         all_goals (try dsimp only)
         all_goals (first | rfl | simp [eeB, cgB, sgB]))
    · intro e st
      cases e <;>
        (simp only [evalExpr]
         try repeat' split
         all_goals (try dsimp only)
         all_goals (first | rfl | simp [eeE, cgE, sgE]))
    · intro nid st
      simp only [computedGet]
      try repeat' split
      all_goals (try dsimp only)
      all_goals (first | rfl | simp [lkB, clB, ucB, batchDepth_updNode])
    · intro nid st
      simp only [computedGet]
      try repeat' split
      all_goals (try dsimp only)
      all_goals (first | rfl | simp [lkE, clE, ucE, evs_updNode])

/-- The batch depth survives `propagate`. -/
theorem batchDepth_propagate (fuel l : Nat) (st : St) :
    (propagate fuel l st).batchDepth = st.batchDepth := by
  unfold propagate
  exact (engineQuiet fuel).1 _ _ _

/-- The effect-invocation count survives `propagate`. -/
theorem effectRuns_propagate (fuel l : Nat) (st : St) :
    effectRuns (propagate fuel l st).evs = effectRuns st.evs := by
  unfold propagate
  exact (engineQuiet fuel).2.1 _ _ _

/-- A source write inside a batch stores and propagates but runs no
effect: the batch depth and the effect-invocation count are
unchanged (the flush guard `batchDepth == 0` fails). -/
theorem quiet_sourceSet_inBatch (fuel nid : Nat) (v : Value) (st : St)
    (h : st.batchDepth ≠ 0) :
    (sourceSet fuel nid v st).batchDepth = st.batchDepth ∧
    effectRuns (sourceSet fuel nid v st).evs = effectRuns st.evs := by
  simp only [sourceSet]
  repeat' split
  · exact ⟨rfl, rfl⟩
  · exact ⟨rfl, rfl⟩
  · rename_i hflush
    rw [batchDepth_propagate] at hflush
    exact absurd hflush h
  · exact ⟨(batchDepth_propagate _ _ _).trans rfl,
      (effectRuns_propagate _ _ _).trans rfl⟩

/-- A whole list of in-batch writes keeps the batch depth and runs no
effect. -/
theorem quiet_applyWrites_inBatch (fuel : Nat) (ws : List (Nat × Value)) (st : St)
    (h : st.batchDepth ≠ 0) :
    (applyWrites fuel ws st).batchDepth = st.batchDepth ∧
    effectRuns (applyWrites fuel ws st).evs = effectRuns st.evs := by
  induction ws generalizing st with
  | nil => exact ⟨rfl, rfl⟩
  | cons p tl ih =>
    have hq := quiet_sourceSet_inBatch fuel p.1 p.2 st h
    have h2 : (sourceSet fuel p.1 p.2 st).batchDepth ≠ 0 := by
      rw [hq.1]
      exact h
    have htl := ih (sourceSet fuel p.1 p.2 st) h2
    exact ⟨htl.1.trans hq.1, htl.2.trans hq.2⟩

end V2

namespace V4

/-- Node store lookup after a v4 node write. -/
theorem nodes_updN (st : StV) (i : Nat) (f : NodeV → NodeV) (j : Nat) :
    (updN st i f).nodes j = if j = i then f (st.nodes i) else st.nodes j := by
  by_cases h : j = i
  · simp [updN, StV.nodes, lookupD, h]
  · simp [updN, StV.nodes, lookupD, h, lookupD_dropKey _ i j _ h]

end V4

namespace V2

/-! Stage equations: each phase evaluates to its literal. -/

set_option maxHeartbeats 2000000 in
/-- Stage equation for the diamond setup. -/
theorem diaSetup_eq : diaSetup = diaSetupLit := by decide

set_option maxHeartbeats 2000000 in
/-- Stage equation for the diamond write. -/
theorem diaWritten_eq : diaWritten = diaWrittenLit := by
  show sourceSet 100 diaS.1 (some 10) diaSetup = diaWrittenLit
  rw [diaSetup_eq]
  decide

set_option maxHeartbeats 2000000 in
/-- Stage equation for the batch setup. -/
theorem batSetup_eq : batSetup = batSetupLit := by decide

set_option maxHeartbeats 2000000 in
/-- Stage equation for the batched double write. -/
theorem batDone_eq : batDone = batDoneLit := by
  show batchRun 200
    (fun st => sourceSet 200 batB.1 (some 20) (sourceSet 200 batA.1 (some 10) st))
    batSetup = batDoneLit
  rw [batSetup_eq]
  decide

set_option maxHeartbeats 2000000 in
/-- Stage equation for the first tracked run of the conditional body. -/
theorem c2Run1_eq : c2Run1 = c2Run1Lit := by decide

set_option maxHeartbeats 2000000 in
/-- Stage equation for the `K := 0` flip. -/
theorem c2Flip_eq : c2Flip = c2FlipLit := by
  show sourceSet 100 c2K.1 (some 0) c2Run1 = c2FlipLit
  rw [c2Run1_eq]
  decide

set_option maxHeartbeats 2000000 in
/-- Stage equation for the reordered second run. -/
theorem c2Run2_eq : c2Run2 = c2Run2Lit := by
  show (readSignal 100 c2C.1 c2Flip).1 = c2Run2Lit
  rw [c2Flip_eq]
  decide

set_option maxHeartbeats 2000000 in
/-- Stage equation for the write to the dropped dep `D`. -/
theorem c2WriteD_eq : c2WriteD = c2WriteDLit := by
  show sourceSet 100 c2D.1 (some 300) c2Run2 = c2WriteDLit
  rw [c2Run2_eq]
  decide

set_option maxHeartbeats 2000000 in
/-- Stage equation for the pruning setup. -/
theorem prSetup_eq : prE.2 = prSetupLit := by decide

set_option maxHeartbeats 2000000 in
/-- Stage equation for the effect disposal. -/
theorem prDisposed_eq : prDisposed = prDisposedLit := by
  show dispose 100 prE.1 prE.2 = prDisposedLit
  rw [prSetup_eq]
  decide

set_option maxHeartbeats 2000000 in
/-- Stage equation for the write after disposal. -/
theorem prWritten_eq : prWritten = prWrittenLit := by
  show sourceSet 100 prS.1 (some 7) prDisposed = prWrittenLit
  rw [prDisposed_eq]
  decide

set_option maxHeartbeats 2000000 in
/-- Stage equation for the read after the pruned write. -/
theorem prRead_eq : prRead = (prReadStLit, some 8) := by
  show readSignal 100 prD.1 prWritten = (prReadStLit, some 8)
  rw [prWritten_eq]
  decide

set_option maxHeartbeats 2000000 in
/-- Stage equation for the direct-plus-derived setup. -/
theorem t3Setup_eq : t3Setup = t3SetupLit := by decide

set_option maxHeartbeats 2000000 in
/-- Stage equation for the direct-plus-derived write. -/
theorem t3W_eq : t3W = t3WLit := by
  show sourceSet 100 t3S.1 (some 5) t3Setup = t3WLit
  rw [t3Setup_eq]
  decide

set_option maxHeartbeats 2000000 in
/-- Stage equation for the double-recompute setup. -/
theorem n9Setup_eq : n9Setup = n9SetupLit := by decide

set_option maxHeartbeats 2000000 in
/-- Stage equation for the double-recompute write. -/
theorem n9W_eq : n9W = n9WLit := by
  show sourceSet 100 n9S.1 (some 2) n9Setup = n9WLit
  rw [n9Setup_eq]
  decide

set_option maxHeartbeats 2000000 in
/-- Stage equation for the first read after the write. -/
theorem n9R1_eq : n9R1 = (n9R1StLit, some 7) := by
  show readSignal 100 n9N.1 n9W = (n9R1StLit, some 7)
  rw [n9W_eq]
  decide

set_option maxHeartbeats 2000000 in
/-- Stage equation for the second consecutive read. -/
theorem n9R2_eq : n9R2 = (n9R2StLit, some 7) := by
  show readSignal 100 n9N.1 n9R1.1 = (n9R2StLit, some 7)
  rw [n9R1_eq]
  decide

set_option maxHeartbeats 2000000 in
/-- Stage equation for the throwing-compute setup. -/
theorem c5Setup_eq : c5Setup = c5SetupLit := by decide

set_option maxHeartbeats 2000000 in
/-- Stage equation for the write that makes the compute throw. -/
theorem c5W_eq : c5W = c5WLit := by
  show sourceSet 100 c5S.1 (some 5) c5Setup = c5WLit
  rw [c5Setup_eq]
  decide

set_option maxHeartbeats 2000000 in
/-- Stage equation for the later unrelated write. -/
theorem c5W2_eq : c5W2 = c5W2Lit := by
  show sourceSet 100 c5X.1 (some 7) c5W = c5W2Lit
  rw [c5W_eq]
  decide

/-! Claim theorems. -/

set_option maxHeartbeats 1000000 in
/-- C1: In the diamond graph — source `s`, derived `a = s+1`, derived
`b = s+2`, derived `c = a+b`, effect `e = sink(c)` — after a single
write `s = 10` outside any batch, the compute of `c` is invoked exactly
once, and the effect `e` is invoked exactly once with the value 23 (the
run completed without exhausting fuel). -/
theorem C1_diamond_single_recompute :
    countCompute diaC.1 diaDelta = 1 ∧
    effectValues diaE.1 diaDelta = [some (some 23)] ∧
    diaWritten.oom = false := by
  unfold diaDelta
  rw [diaSetup_eq, diaWritten_eq]
  decide

set_option maxHeartbeats 1000000 in
/-- C2 (code bug witnessed): a computed `c` whose second tracked run
reads `K, A, D, B` (after a first run reading `K, A, B, D`) ends the
run with deps `[K, A, B]` — the freshly read `D` is dropped from the
deps list (its link is unlinked at `end_tracking`), so a subsequent
write to `D` propagates nothing and `c` keeps its stale value 60
instead of 330. -/
theorem C2_out_of_order_read_drops_dep :
    depsOf 20 c2C.1 c2Run2 = [c2K.1, c2A.1, c2B.1] ∧
    depsOf 20 c2C.1 c2Run2 ≠ [c2K.1, c2A.1, c2D.1, c2B.1] ∧
    subsOf 20 c2D.1 c2Run2 = [] ∧
    c2WriteD.evs.drop c2Run2.evs.length = [] ∧
    (readSignal 100 c2C.1 c2WriteD).2 = some 60 ∧
    c2Run2.oom = false := by
  rw [c2Run2_eq, c2WriteD_eq]
  decide

set_option maxHeartbeats 1000000 in
/-- C4: for sources `a = 1`, `b = 1`, derived `c = a+b` and effect
`e = record(c)`, writing `a = 10` and `b = 20` inside one batch runs
`e` exactly once after the outermost batch exit, observing `c = 30`,
with `c`'s compute invoked exactly once; and in general, effects
queued during a batch observe the post-batch value of every source
written in the batch: a source write inside a batch (batch depth
nonzero) stores and propagates but runs no effect at all and keeps the
batch depth, and a batch whose body is any sequence of source writes
equals that same write sequence followed by one flush at the exit — so
every effect the batch queued runs inside that final flush, against
the state holding all the batch's writes. -/
theorem C4_batch_atomicity :
    countCompute batC.1 batDelta = 1 ∧
    effectValues batE.1 batDelta = [some (some 30)] ∧
    batDone.oom = false ∧
    (∀ fuel nid v st, st.batchDepth ≠ 0 →
      effectRuns (sourceSet fuel nid v st).evs = effectRuns st.evs ∧
      (sourceSet fuel nid v st).batchDepth = st.batchDepth) ∧
    (∀ fuel fuel2 ws st, st.batchDepth = 0 →
      batchRun fuel (applyWrites fuel2 ws) st
        = flush fuel
            { applyWrites fuel2 ws { st with batchDepth := 1 } with
              batchDepth := 0 }) := by
  have hconc : countCompute batC.1 batDelta = 1 ∧
      effectValues batE.1 batDelta = [some (some 30)] ∧
      batDone.oom = false := by
    unfold batDelta
    rw [batSetup_eq, batDone_eq]
    decide
  refine ⟨hconc.1, hconc.2.1, hconc.2.2, ?_, ?_⟩
  · intro fuel nid v st h
    exact ⟨(quiet_sourceSet_inBatch fuel nid v st h).2,
      (quiet_sourceSet_inBatch fuel nid v st h).1⟩
  · intro fuel fuel2 ws st h
    have h2 : (applyWrites fuel2 ws { st with batchDepth := 1 }).batchDepth = 1 :=
      (quiet_applyWrites_inBatch fuel2 ws { st with batchDepth := 1 } (by simp)).1
    simp [batchRun, h, h2]

/-- Witness for C4: a write inside a one-deep batch on the empty state
is effect-silent and depth-preserving, and a two-write batch on the
initial state flushes exactly the post-write state at its exit. -/
theorem C4_batch_atomicity_witness :
    effectRuns (sourceSet 5 0 (some 2) w4In).evs = effectRuns w4In.evs ∧
    (sourceSet 5 0 (some 2) w4In).batchDepth = w4In.batchDepth ∧
    batchRun 5 (applyWrites 5 [(0, some 2), (1, some 3)]) St.init
      = flush 5
          { applyWrites 5 [(0, some 2), (1, some 3)] { St.init with batchDepth := 1 }
            with batchDepth := 0 } :=
  ⟨(C4_batch_atomicity.2.2.2.1 5 0 (some 2) w4In (by decide)).1,
   (C4_batch_atomicity.2.2.2.1 5 0 (some 2) w4In (by decide)).2,
   C4_batch_atomicity.2.2.2.2 5 5 [(0, some 2), (1, some 3)] St.init (by decide)⟩

end V2


namespace V2

/-- C8: writing to a source a value equal (by the embedded JS equality)
to its current value is a complete no-op: the resulting state is the
input state, so no cell's flags change anywhere in the graph, no
effect runs, and no compute is invoked. -/
theorem C8_equal_write_noop (fuel nid : Nat) (v : Value) (st : St)
    (h : (st.nodes nid).currentValue = v) :
    sourceSet fuel nid v st = st := by
  unfold sourceSet
  simp [h]

/-- Witness for C8: an equal write on a freshly created source. -/
theorem C8_equal_write_noop_witness :
    sourceSet 100 0 (some 1) (mkSource (some 1) St.init).2
      = (mkSource (some 1) St.init).2 :=
  C8_equal_write_noop 100 0 (some 1) (mkSource (some 1) St.init).2 (by decide)

set_option maxHeartbeats 1000000 in
/-- C9 is false as stated: with source `s`, `q = s`, `d = q + 1` and
`n = s + (d + q)`, after a write to `s` the two consecutive reads of
`n` (no intervening write) return the same value, but each read
invokes `n`'s compute once — twice across the two reads, exceeding the
claimed "at most once".  The first read's dirty check recomputes `q`,
whose shallow propagation re-marks `n` STALE while `n` is already
recomputing. -/
theorem C9_counterexample :
    n9R1.2 = n9R2.2 ∧
    countCompute n9N.1 (n9R1.1.evs.drop n9W.evs.length) = 1 ∧
    countCompute n9N.1 (n9R2.1.evs.drop n9R1.1.evs.length) = 1 ∧
    n9R2.1.oom = false := by
  rw [n9R1_eq, n9R2_eq, n9W_eq]
  decide

/-- C9 (amended): a read of a derived cell that is neither STALE nor
PENDING, made outside any consumer, invokes no compute and returns the
stored value with the state unchanged; consecutive such reads
therefore agree and run no compute at all.  The original "at most once
across two reads" fails only when the first read itself re-marks the
cell mid-run (`C9_counterexample`). -/
theorem C9_amended (fuel nid : Nat) (st : St)
    (h1 : (st.nodes nid).flags &&& STALE = 0)
    (h2 : (st.nodes nid).flags &&& PENDING = 0)
    (ha : st.activeSub = none) :
    computedGet (fuel + 1) nid st = (st, (st.nodes nid).currentValue) := by
  unfold computedGet
  simp [ha, h1, h2]

/-- Witness for C9 (amended): the cell `n` right after the second read
of the double-recompute scenario is clean, so a further read is pure. -/
theorem C9_amended_witness :
    computedGet (99 + 1) n9N.1 n9R2StLit
      = (n9R2StLit, (n9R2StLit.nodes n9N.1).currentValue) :=
  C9_amended 99 n9N.1 n9R2StLit (by decide) (by decide) (by decide)

set_option maxHeartbeats 1000000 in
/-- C3 is false as stated: with source `s`, derived `a` reading `s`,
derived `b` reading `s` then `a`, and derived `cOnly` reading only
`a`, after a write to `s` the cell `b` — whose immediate deps include
the just-written source, so by the claim's second "iff" it must not
receive PENDING — holds STALE and PENDING together (flags 13), because
it is also reached through the derived `a`.  (`a`, reached directly
only, gets STALE alone; `cOnly`, reached only through `a`, gets
PENDING alone.) -/
theorem C3_counterexample :
    depsOf 10 t3B.1 t3W = [t3S.1, t3A.1] ∧
    (t3W.nodes t3B.1).flags = COMPUTED ||| STALE ||| PENDING ∧
    (t3W.nodes t3A.1).flags = COMPUTED ||| STALE ∧
    (t3W.nodes t3C.1).flags = COMPUTED ||| PENDING ∧
    t3W.oom = false := by
  rw [t3W_eq]
  decide

/-- C3 (amended): propagation assigns flags per reaching link, not per
cell — a reached subscriber ORs STALE into its flags when the producer
of the reaching link is a non-COMPUTED cell (the written source) and
PENDING when the producer is a derived cell, accumulating across
paths.  Exhibited on a one-link step: propagating from link `l` to its
(effect) subscriber ORs exactly STALE or PENDING into the subscriber's
flags according to the producer's COMPUTED bit, and queues the
effect. -/
theorem C3_amended (fuel l : Nat) (st : St)
    (hns : (st.links l).nextSub = none)
    (hp : (st.nodes (st.links l).sub).flags &&& PROPAGATING = 0)
    (he : (st.nodes (st.links l).sub).flags &&& EFFECT ≠ 0) :
    propagate (fuel + 2) l st =
      notify (st.links l).sub
        (updNode st (st.links l).sub fun n =>
          { n with flags :=
              (st.nodes (st.links l).sub).flags |||
                (if (st.nodes (st.links l).dep).flags &&& COMPUTED ≠ 0 then PENDING
                  else STALE) }) := by
  have hl1 : ∀ tf : Nat, propChain (fuel + 1) l tf [l] st
      = ([l], notify (st.links l).sub
          (updNode st (st.links l).sub fun n =>
            { n with flags := (st.nodes (st.links l).sub).flags ||| tf })) := by
    intro tf
    simp [propChain, hp, he, links_notify, links_updNode, hns]
  unfold propagate
  simp [propLoop, hl1]

/-- Witness for C3 (amended): the one-source-one-effect state; the
producer is a source, so the subscriber gets STALE. -/
theorem C3_amended_witness :
    propagate (0 + 2) 0 w3St =
      notify (w3St.links 0).sub
        (updNode w3St (w3St.links 0).sub fun n =>
          { n with flags :=
              (w3St.nodes (w3St.links 0).sub).flags |||
                (if (w3St.nodes (w3St.links 0).dep).flags &&& COMPUTED ≠ 0 then PENDING
                  else STALE) }) :=
  C3_amended 0 0 w3St (by decide) (by decide) (by decide)

set_option maxHeartbeats 1000000 in
/-- C6: splicing a link out of its dep's subscriber list during the
`endTracking` drain, when it leaves a computed dep with no subscribers
while the dep still has dependencies, marks that dep STALE, clears its
deps list, and hands the dep's former deps chain to the drain (so each
producer link is unlinked in turn); consequently, in the
source/derived/disposed-effect scenario the dep `d` ends STALE and
fully detached (`s` has no subscribers, `d` no deps), a write to `s`
never calls `d`'s compute, and a later read of `d` recomputes it
exactly once, returning the fresh value. -/
theorem C6_unobserved_pruning (st : St) (l dh dt : Nat)
    (hns : (st.links l).nextSub = none)
    (hps : (st.links l).prevSub = none)
    (hdh : (st.nodes (st.links l).dep).depsHead = some dh)
    (hdt : (st.nodes (st.links l).dep).depsTail = some dt) :
    ((drainBody l st).1 = some dh ∧
     ((drainBody l st).2.nodes (st.links l).dep).flags
        = (st.nodes (st.links l).dep).flags ||| STALE ∧
     ((drainBody l st).2.nodes (st.links l).dep).subsHead = none ∧
     ((drainBody l st).2.nodes (st.links l).dep).subsTail = none ∧
     ((drainBody l st).2.nodes (st.links l).dep).depsHead = none ∧
     ((drainBody l st).2.nodes (st.links l).dep).depsTail = none) ∧
    countCompute prD.1 (prWritten.evs.drop prDisposed.evs.length) = 0 ∧
    countCompute prD.1 (prRead.1.evs.drop prWritten.evs.length) = 1 ∧
    prRead.2 = some 8 ∧
    (prDisposed.nodes prD.1).flags &&& STALE ≠ 0 ∧
    subsOf 10 prS.1 prDisposed = [] ∧
    depsOf 10 prD.1 prDisposed = [] ∧
    prRead.1.oom = false := by
  refine ⟨?_, ?_⟩
  · simp only [drainBody, hns, hps]
    simp [nodes_updNode, nodes_updLink, hdh, hdt]
  · rw [prWritten_eq, prDisposed_eq, prRead_eq]
    decide

set_option maxHeartbeats 1000000 in
/-- Witness for C6: in the scenario state before disposal, link `0` is
the sole subscriber link of computed `d` (node 1), whose own deps
chain is link `1`. -/
theorem C6_unobserved_pruning_witness :
    (((drainBody 0 prSetupLit).1 = some 1 ∧
      ((drainBody 0 prSetupLit).2.nodes (prSetupLit.links 0).dep).flags
         = (prSetupLit.nodes (prSetupLit.links 0).dep).flags ||| STALE ∧
      ((drainBody 0 prSetupLit).2.nodes (prSetupLit.links 0).dep).subsHead = none ∧
      ((drainBody 0 prSetupLit).2.nodes (prSetupLit.links 0).dep).subsTail = none ∧
      ((drainBody 0 prSetupLit).2.nodes (prSetupLit.links 0).dep).depsHead = none ∧
      ((drainBody 0 prSetupLit).2.nodes (prSetupLit.links 0).dep).depsTail = none) ∧
     countCompute prD.1 (prWritten.evs.drop prDisposed.evs.length) = 0 ∧
     countCompute prD.1 (prRead.1.evs.drop prWritten.evs.length) = 1 ∧
     prRead.2 = some 8 ∧
     (prDisposed.nodes prD.1).flags &&& STALE ≠ 0 ∧
     subsOf 10 prS.1 prDisposed = [] ∧
     depsOf 10 prD.1 prDisposed = [] ∧
     prRead.1.oom = false) :=
  C6_unobserved_pruning prSetupLit 0 1 1 (by decide) (by decide) (by decide) (by decide)

set_option maxHeartbeats 1000000 in
/-- C5: a derived cell whose compute throws: the exception is caught
(`updateComputed` returns `false`, so no change is signalled to its
callers and dependents are not shallow-propagated), the stored value
is unchanged, the uncaught-exception marker is untouched, the trace
gains exactly the one compute call, and the active consumer is
restored; in the concrete scenario the write making `d` throw produces
only `d`'s compute call (its dependent effect is not re-run), `d`
keeps value 1, the engine is not poisoned, and a later write to the
unrelated source `x` still re-runs its effect with the new value 7. -/
theorem C5_compute_throw_contained (fuel nid : Nat) (st : St)
    (hfn : (st.nodes nid).fn = some Expr.fail) :
    (updateComputed (fuel + 1 + 1) nid st).2 = false ∧
    ((updateComputed (fuel + 1 + 1) nid st).1.nodes nid).currentValue
      = (st.nodes nid).currentValue ∧
    (updateComputed (fuel + 1 + 1) nid st).1.exn = st.exn ∧
    (updateComputed (fuel + 1 + 1) nid st).1.evs = st.evs ++ [Ev.computeCall nid] ∧
    (updateComputed (fuel + 1 + 1) nid st).1.activeSub = st.activeSub ∧
    c5W.evs.drop c5Setup.evs.length = [Ev.computeCall c5D.1] ∧
    (c5W.nodes c5D.1).currentValue = some 1 ∧
    c5W.exn = false ∧
    effectValues c5E2.1 (c5W2.evs.drop c5W.evs.length) = [some (some 7)] ∧
    c5W2.oom = false := by
  have hfn2 : ((startTracking nid { st with activeSub := some nid }).nodes nid).fn
      = some Expr.fail := by
    rw [startTracking, nodes_updNode, if_pos rfl]
    exact hfn
  have key : updateComputed (fuel + 1 + 1) nid st
      = ({ endTracking (fuel + 1) nid
            (record (Ev.computeCall nid)
              (startTracking nid { st with activeSub := some nid }))
          with activeSub := st.activeSub }, false) := by
    simp only [updateComputed]
    simp only [hfn2, evalExpr]
  rw [key]
  refine ⟨rfl, ?_, ?_, ?_, rfl, ?_, ?_, ?_, ?_, ?_⟩
  · show ((endTracking (fuel + 1) nid
        (record (Ev.computeCall nid)
          (startTracking nid { st with activeSub := some nid }))).nodes nid).currentValue
      = (st.nodes nid).currentValue
    rw [currentValue_endTracking]
    show ((startTracking nid { st with activeSub := some nid }).nodes nid).currentValue
      = (st.nodes nid).currentValue
    rw [currentValue_startTracking]
    rfl
  · show (endTracking (fuel + 1) nid
        (record (Ev.computeCall nid)
          (startTracking nid { st with activeSub := some nid }))).exn = st.exn
    rw [exn_endTracking]
    show (startTracking nid { st with activeSub := some nid }).exn = st.exn
    simp [startTracking, exn_updNode]
  · show (endTracking (fuel + 1) nid
        (record (Ev.computeCall nid)
          (startTracking nid { st with activeSub := some nid }))).evs
      = st.evs ++ [Ev.computeCall nid]
    rw [evs_endTracking]
    show (startTracking nid { st with activeSub := some nid }).evs ++ [Ev.computeCall nid]
      = st.evs ++ [Ev.computeCall nid]
    simp [startTracking, evs_updNode]
  · rw [c5W_eq, c5Setup_eq]
    decide
  · rw [c5W_eq]
    decide
  · rw [c5W_eq]
    decide
  · rw [c5W2_eq, c5W_eq]
    decide
  · rw [c5W2_eq]
    decide

/-- Witness for C5: the always-throwing computed node of `w5St`, run
with minimal fuel. -/
theorem C5_compute_throw_contained_witness :
    (updateComputed (0 + 1 + 1) 0 w5St).2 = false ∧
    ((updateComputed (0 + 1 + 1) 0 w5St).1.nodes 0).currentValue
      = (w5St.nodes 0).currentValue ∧
    (updateComputed (0 + 1 + 1) 0 w5St).1.exn = w5St.exn ∧
    (updateComputed (0 + 1 + 1) 0 w5St).1.evs = w5St.evs ++ [Ev.computeCall 0] ∧
    (updateComputed (0 + 1 + 1) 0 w5St).1.activeSub = w5St.activeSub ∧
    c5W.evs.drop c5Setup.evs.length = [Ev.computeCall c5D.1] ∧
    (c5W.nodes c5D.1).currentValue = some 1 ∧
    c5W.exn = false ∧
    effectValues c5E2.1 (c5W2.evs.drop c5W.evs.length) = [some (some 7)] ∧
    c5W2.oom = false :=
  C5_compute_throw_contained 0 0 w5St (by decide)

end V2

namespace V4

set_option maxHeartbeats 1000000 in
/-- C7: entering `run` on a cell whose RUNNING guard is set aborts
with exactly one `cycleInit` report, clears any parked generator, and
sets the cell's `recursive` flag; a propagation step over a link whose
subscriber is `recursive` changes nothing (the cell is never
enqueued); and concretely, the first read of the self-reading derived
`selfD` reports the cycle once, terminates, returns the well-defined
value 42, and marks the cell recursive, a second read returns the same
value, and a write to the non-cyclic dep of the transitively cyclic
`tcD` terminates and stores the value. -/
theorem C7_cycle_safety (fuel nid : Nat) (st : StV)
    (hrun : (st.nodes nid).running = true)
    (fuel2 l : Nat) (dd md : Int) (st2 : StV)
    (hrec : (st2.nodes (st2.links l).sub).recursive = true)
    (hns : (st2.links l).nextSub = none) :
    runV (fuel + 1) nid st
      = updN (recV (Ev.cycleInit nid) st) nid
          (fun x => { x with gen := none, running := false, recursive := true }) ∧
    propChainV (fuel2 + 1) l dd md st2 = st2 ∧
    selfRead.1.evs = [Ev.cycleInit selfD.1] ∧
    selfRead.2 = some 42 ∧
    (selfRead.1.nodes selfD.1).recursive = true ∧
    selfRead.1.oom = false ∧
    selfRead2.2 = some 42 ∧
    selfRead2.1.oom = false ∧
    tcWrite.oom = false ∧
    getSrcV tcS.1 tcWrite = some 5 := by
  refine ⟨?_, ?_, ?_, ?_, ?_, ?_, ?_, ?_, ?_, ?_⟩
  · unfold runV
    simp [hrun]
  · unfold propChainV
    simp [hrec, hns]
  all_goals decide

set_option maxHeartbeats 1000000 in
/-- Witness for C7: the RUNNING-guarded node of `w7Run` and the
recursive subscriber of `w7Prop`. -/
theorem C7_cycle_safety_witness :
    runV (0 + 1) 0 w7Run
      = updN (recV (Ev.cycleInit 0) w7Run) 0
          (fun x => { x with gen := none, running := false, recursive := true }) ∧
    propChainV (0 + 1) 0 0 0 w7Prop = w7Prop ∧
    selfRead.1.evs = [Ev.cycleInit selfD.1] ∧
    selfRead.2 = some 42 ∧
    (selfRead.1.nodes selfD.1).recursive = true ∧
    selfRead.1.oom = false ∧
    selfRead2.2 = some 42 ∧
    selfRead2.1.oom = false ∧
    tcWrite.oom = false ∧
    getSrcV tcS.1 tcWrite = some 5 :=
  C7_cycle_safety 0 0 w7Run (by decide) 0 0 0 0 w7Prop (by decide) (by decide)

end V4

/-- C10: writing a fresh (unequal) value to a subscriber-less source
stores the value and does nothing else, in both engines: the v2 setter
yields exactly the one-field node update (no version bump, no
propagation, no flush — every other part of the state is untouched)
and a subsequent read returns the new value; the v4 setter likewise
yields exactly the one-field node update, and its getter returns the
new value. -/
theorem C10_unobserved_write (fuel nid : Nat) (v : Value) (st : V2.St)
    (hne : ¬ (st.nodes nid).currentValue = v)
    (hs : (st.nodes nid).subsHead = none)
    (ha : st.activeSub = none)
    (fuel2 nd : Nat) (w : Value) (stv : V4.StV)
    (hnev : ¬ w = (stv.nodes nd).value)
    (hsv : (stv.nodes nd).subsHead = none) :
    V2.sourceSet fuel nid v st
      = V2.updNode st nid (fun n => { n with currentValue := v }) ∧
    (V2.sourceGet nid (V2.sourceSet fuel nid v st)).2 = v ∧
    V4.setV fuel2 nd (V4.SetArg.val w) stv
      = V4.updN stv nd (fun n => { n with value := w }) ∧
    V4.getSrcV nd (V4.setV fuel2 nd (V4.SetArg.val w) stv) = w := by
  have h2 : V2.sourceSet fuel nid v st
      = V2.updNode st nid (fun n => { n with currentValue := v }) := by
    unfold V2.sourceSet
    simp [hne, V2.nodes_updNode, hs]
  have h4 : V4.setV fuel2 nd (V4.SetArg.val w) stv
      = V4.updN stv nd (fun n => { n with value := w }) := by
    unfold V4.setV
    simp [hnev, V4.nodes_updN, hsv]
  refine ⟨h2, ?_, h4, ?_⟩
  · rw [h2]
    unfold V2.sourceGet
    simp [V2.activeSub_updNode, ha, V2.nodes_updNode]
  · rw [h4]
    unfold V4.getSrcV
    simp [V4.nodes_updN]

/-- Witness for C10: unequal writes on the two lone sources. -/
theorem C10_unobserved_write_witness :
    (V2.sourceSet 5 0 (some 2) w10
       = V2.updNode w10 0 (fun n => { n with currentValue := some 2 })) ∧
    (V2.sourceGet 0 (V2.sourceSet 5 0 (some 2) w10)).2 = some 2 ∧
    (V4.setV 5 0 (V4.SetArg.val (some 2)) w10v
       = V4.updN w10v 0 (fun n => { n with value := some 2 })) ∧
    V4.getSrcV 0 (V4.setV 5 0 (V4.SetArg.val (some 2)) w10v) = some 2 :=
  C10_unobserved_write 5 0 (some 2) w10 (by decide) (by decide) (by decide)
    5 0 (some 2) w10v (by decide) (by decide)

end SignalsLab
